import Mathlib

/-
  Shallow embedding of the unifid office-resource-booking backend.

  Sources embedded:
    src/app/services/floor_plan_service.py   (FloorPlanService, PLAN_TYPE_TO_MANAGER_TYPE,
                                              VALID_CELL_TYPES, validate_grid_data,
                                              can_manage_plan_type, create_floor_plan,
                                              create_version, get_latest_version)
    src/app/services/desk_service.py         (DeskService: validate_desk_cell,
                                              check_booking_overlap, update_booking,
                                              cancel_booking)
    src/unified-office-management/app/services/cafeteria_service.py
                                             (CafeteriaService: check_booking_overlap,
                                              cancel_booking)
    src/app/services/parking_service.py      (ParkingService: can_manage_parking,
                                              validate_parking_slot,
                                              check_user_active_parking,
                                              check_slot_availability, get_available_slots,
                                              assign_visitor_slot, create_allocation,
                                              record_entry, record_exit)

  Modelling conventions:
  - SQLAlchemy tables become lists of records inside a single DB structure; a
    service method that reads and writes the store becomes a function from DB
    to DB plus the returned value.
  - Python datetime.date / datetime.time / datetime are totally ordered opaque
    values; dates and times of day are Nat, absolute timestamps are Int
    (seconds).  duration.total_seconds() / 60 followed by int() is exact
    integer truncation toward zero, i.e. Int.tdiv.
  - result.scalar_one_or_none() returns the unique row, none for no row, and
    raises MultipleResultsFound for two or more rows: modelled by
    scalarOneOrNone in the Except Exc monad.  Primary-key lookups
    (unique by construction) are List.find?.
  - Python int(s) on an optionally minus-signed digit string is pyToInt?;
    a parse failure raises ValueError.  str.isdigit is strIsDigit.
  - Python negative list indexing (xs[-1] is the last element) is pyGet;
    an index outside [-len, len) raises IndexError.
  - A JSON cell dict is the Cell structure; absent keys are none, and
    cell.get(k, default) is Option.getD.
-/

namespace Unifid

/-! ## Enums (models/enums.py) -/

inductive UserRole
  | superAdmin | admin | manager | teamLead | employee
  deriving DecidableEq, Repr

inductive ManagerType
  | deskConference | cafeteria | parking
  deriving DecidableEq, Repr

inductive FloorPlanType
  | deskArea | cafeteria | parking
  deriving DecidableEq, Repr

inductive BookingStatus
  | pending | confirmed | cancelled | completed
  deriving DecidableEq, Repr

inductive ParkingType
  | employee | visitor
  deriving DecidableEq, Repr

/-! ## Records -/

structure User where
  id : Nat
  role : UserRole
  manager_type : Option ManagerType
  deriving DecidableEq, Repr

/-- One cell of a grid_data JSON matrix.  Absent keys are `none`. -/
structure Cell where
  cell_type : Option String
  label : Option String
  is_active : Option Bool
  direction : Option String
  deriving DecidableEq, Repr

structure FloorPlan where
  id : Nat
  name : String
  plan_type : FloorPlanType
  rows : Nat
  columns : Nat
  current_version : Nat
  is_active : Bool
  created_by_id : Nat
  deriving DecidableEq, Repr

structure FloorPlanVersion where
  floor_plan_id : Nat
  version : Nat
  grid_data : List (List Cell)
  is_active : Bool
  created_by_id : Nat
  change_notes : Option String
  deriving DecidableEq, Repr

structure DeskBooking where
  id : Nat
  floor_plan_id : Nat
  desk_label : String
  cell_row : String
  cell_column : String
  user_id : Nat
  booking_date : Nat
  start_time : Nat
  end_time : Nat
  status : BookingStatus
  notes : Option String
  deriving DecidableEq, Repr

structure CafeteriaTableBooking where
  id : Nat
  floor_plan_id : Nat
  table_label : String
  cell_row : String
  cell_column : String
  user_id : Nat
  booking_date : Nat
  start_time : Nat
  end_time : Nat
  guest_count : Nat
  status : BookingStatus
  notes : Option String
  deriving DecidableEq, Repr

structure ParkingAllocation where
  id : Nat
  floor_plan_id : Nat
  slot_label : String
  cell_row : String
  cell_column : String
  parking_type : ParkingType
  user_id : Option Nat
  visitor_name : Option String
  visitor_phone : Option String
  visitor_company : Option String
  vehicle_number : Option String
  notes : Option String
  entry_time : Option Int
  exit_time : Option Int
  is_active : Bool
  deriving DecidableEq, Repr

structure ParkingHistory where
  allocation_id : Nat
  floor_plan_id : Nat
  slot_label : String
  parking_type : ParkingType
  user_id : Option Nat
  visitor_name : Option String
  vehicle_number : Option String
  entry_time : Int
  exit_time : Int
  duration_minutes : String
  deriving DecidableEq, Repr

/-- The persistent store: every table as a list of rows. -/
structure DB where
  plans : List FloorPlan
  versions : List FloorPlanVersion
  desk_bookings : List DeskBooking
  caf_bookings : List CafeteriaTableBooking
  allocations : List ParkingAllocation
  parking_history : List ParkingHistory
  deriving DecidableEq, Repr

/-! ## Python / SQLAlchemy primitives -/

instance {ε α : Type} [DecidableEq ε] [DecidableEq α] :
    DecidableEq (Except ε α) := fun a b =>
  match a, b with
  | .ok x, .ok y =>
    if h : x = y then .isTrue (by rw [h])
    else .isFalse (fun hh => by cases hh; exact h rfl)
  | .error x, .error y =>
    if h : x = y then .isTrue (by rw [h])
    else .isFalse (fun hh => by cases hh; exact h rfl)
  | .ok _, .error _ => .isFalse (fun hh => by cases hh)
  | .error _, .ok _ => .isFalse (fun hh => by cases hh)

/-- Exceptions the embedded code can raise. -/
inductive Exc
  | valueError
  | indexError
  | multipleResultsFound
  deriving DecidableEq, Repr

/-- result.scalar_one_or_none(): none for zero rows, the row for one,
    MultipleResultsFound for two or more. -/
def scalarOneOrNone {α : Type} (xs : List α) : Except Exc (Option α) :=
  match xs with
  | [] => .ok none
  | [a] => .ok (some a)
  | _ => .error .multipleResultsFound

/-- Python list indexing with negative-index wrap-around; none is IndexError. -/
def pyGet {α : Type} (xs : List α) (i : Int) : Option α :=
  let j : Int := if i < 0 then (xs.length : Int) + i else i
  if j < 0 then none else xs.get? j.toNat

/-- str.isdigit restricted to ASCII digits (computed over the character
    list so that concrete instances evaluate). -/
def strIsDigit (s : String) : Bool :=
  !s.data.isEmpty && s.data.all Char.isDigit

/-- Numeric value of a digit-character list, most significant first. -/
def digitsToNat (l : List Char) : Nat :=
  l.foldl (fun n c => n * 10 + (c.toNat - '0'.toNat)) 0

/-- Python int(s) for a digit string (the only shape isdigit lets through). -/
def pyToNat? (s : String) : Option Nat :=
  if strIsDigit s then some (digitsToNat s.data) else none

/-- Python int(s) for an optionally minus-signed digit string; none models
    the ValueError int raises on any other shape. -/
def pyToInt? (s : String) : Option Int :=
  match s.data with
  | '-' :: rest =>
    if !rest.isEmpty && rest.all Char.isDigit then
      some (-(digitsToNat rest : Int))
    else none
  | l =>
    if !l.isEmpty && l.all Char.isDigit then some (digitsToNat l : Int)
    else none

/-- Python str.strip on the character list. -/
def stripChars (l : List Char) : List Char :=
  ((l.dropWhile Char.isWhitespace).reverse.dropWhile Char.isWhitespace).reverse

/-- ORDER BY version DESC LIMIT 1 over the versions of one floor plan:
    the row with the largest version number. -/
def latestVersion (versions : List FloorPlanVersion) (fpId : Nat) :
    Option FloorPlanVersion :=
  (versions.filter (fun v => v.floor_plan_id == fpId)).foldl
    (fun acc v =>
      match acc with
      | none => some v
      | some w => if w.version < v.version then some v else some w)
    none

/-! ## FloorPlanService constants -/

/-- Mapping between FloorPlanType and ManagerType (a dict in the source,
    so lookup yields an Option). -/
def PLAN_TYPE_TO_MANAGER_TYPE : FloorPlanType → Option ManagerType
  | .deskArea => some .deskConference
  | .cafeteria => some .cafeteria
  | .parking => some .parking

/-- Valid cell types for each floor plan type (string values of CellType). -/
def VALID_CELL_TYPES : FloorPlanType → List String
  | .deskArea => ["desk", "path", "wall", "entry", "exit", "empty"]
  | .cafeteria => ["cafeteria_table", "path", "wall", "entry", "exit", "empty"]
  | .parking => ["parking_slot", "path", "wall", "entry", "exit", "empty"]

/-! ## FloorPlanService.validate_grid_data -/

/-- Structured form of the error strings validate_grid_data returns.
    Each constructor carries exactly the data interpolated into the
    corresponding message. -/
inductive GridError
  | wrongRowCount (rows : Nat)
  | wrongColCount (row : Nat) (columns : Nat)
  | missingCellType (row col : Nat)
  | invalidCellType (cellType : String) (row col : Nat)
  deriving DecidableEq, Repr

/-- Inner loop over the cells of one row; c is the running column index.
    cell.get with a falsy value (absent key or empty string) reports
    missing cell_type. -/
def firstBadCell (valid : List String) (r : Nat) (c : Nat) :
    List Cell → Option GridError
  | [] => none
  | cell :: rest =>
    match cell.cell_type with
    | none => some (.missingCellType r c)
    | some ct =>
      if ct = "" then some (.missingCellType r c)
      else if valid.contains ct then firstBadCell valid r (c + 1) rest
      else some (.invalidCellType ct r c)

/-- Outer loop over the rows; r is the running row index.  A row with the
    wrong length is reported before its cells are examined. -/
def scanRows (valid : List String) (columns : Nat) (r : Nat) :
    List (List Cell) → Option GridError
  | [] => none
  | row :: rest =>
    if row.length ≠ columns then some (.wrongColCount r columns)
    else
      match firstBadCell valid r 0 row with
      | some e => some e
      | none => scanRows valid columns (r + 1) rest

namespace FloorPlanService

/-- FloorPlanService.validate_grid_data: none means valid. -/
def validate_grid_data (grid_data : List (List Cell)) (rows columns : Nat)
    (plan_type : FloorPlanType) : Option GridError :=
  if grid_data.length ≠ rows then some (.wrongRowCount rows)
  else scanRows (VALID_CELL_TYPES plan_type) columns 0 grid_data

/-- FloorPlanService.can_manage_plan_type. -/
def can_manage_plan_type (user : User) (plan_type : FloorPlanType) : Bool :=
  if user.role = .superAdmin then true
  else if user.role = .admin then true
  else if user.role ≠ .manager ∨ user.manager_type = none then false
  else decide (user.manager_type = PLAN_TYPE_TO_MANAGER_TYPE plan_type)

/-- FloorPlanService.get_floor_plan_by_id (primary-key lookup). -/
def get_floor_plan_by_id (db : DB) (floor_plan_id : Nat) : Option FloorPlan :=
  db.plans.find? (fun p => p.id == floor_plan_id)

/-- FloorPlanService.get_latest_version. -/
def get_latest_version (db : DB) (floor_plan_id : Nat) : Option FloorPlanVersion :=
  latestVersion db.versions floor_plan_id

end FloorPlanService

/-! ## Interval overlap predicates (shared shape of the desk and cafeteria
      booking-overlap SQL filters) -/

/-- The three-disjunct time filter the desk and cafeteria services put in
    their overlap query, applied to an existing interval [bs, be) against a
    candidate [s, e). -/
def overlapFilter (s e bs be : Nat) : Bool :=
  (bs ≤ s && be > s) || (bs < e && be ≥ e) || (bs ≥ s && be ≤ e)

/-- The canonical half-open interval overlap rule from the spec. -/
def canonicalOverlap (s e bs be : Nat) : Bool :=
  bs < e && s < be

/-! ## DeskService -/

inductive DeskCellErr
  | floorPlanNotFound | outOfBounds | notADesk | notActive
  deriving DecidableEq, Repr

inductive DeskCellResult
  | valid (version : Nat)
  | invalid (e : DeskCellErr)
  deriving DecidableEq, Repr

/-- Tail of validate_desk_cell once a cell has been fetched: the cell_type
    and is_active checks. -/
def inspectDeskCell (cell : Cell) (version : Nat) : DeskCellResult :=
  if cell.cell_type ≠ some "desk" then .invalid .notADesk
  else if (cell.is_active.getD true) = false then .invalid .notActive
  else .valid version

namespace DeskService

/-- DeskService.validate_desk_cell.  The int() conversions and the list
    indexing keep their Python semantics: ValueError on a non-numeric
    string, wrap-around for negative indexes, IndexError outside
    [-len, len).  The bounds test compares against len(grid) and
    len(grid[0]) only, with short-circuit evaluation. -/
def validate_desk_cell (db : DB) (floor_plan_id : Nat)
    (cell_row cell_column : String) : Except Exc DeskCellResult :=
  match latestVersion db.versions floor_plan_id with
  | none => .ok (.invalid .floorPlanNotFound)
  | some version =>
    match pyToInt? cell_row, pyToInt? cell_column with
    | some row_idx, some col_idx =>
      let grid := version.grid_data
      if (grid.length : Int) ≤ row_idx then .ok (.invalid .outOfBounds)
      else
        match grid.head? with
        | none => .error .indexError
        | some row0 =>
          if (row0.length : Int) ≤ col_idx then .ok (.invalid .outOfBounds)
          else
            match pyGet grid row_idx with
            | none => .error .indexError
            | some row =>
              match pyGet row col_idx with
              | none => .error .indexError
              | some cell => .ok (inspectDeskCell cell version.version)
    | _, _ => .error .valueError

/-- Row filter of the overlap query in DeskService.check_booking_overlap. -/
def matchesOverlap (floor_plan_id : Nat) (desk_label : String)
    (booking_date start_time end_time : Nat) (exclude_booking_id : Option Nat)
    (b : DeskBooking) : Bool :=
  b.floor_plan_id == floor_plan_id &&
  b.desk_label == desk_label &&
  b.booking_date == booking_date &&
  (b.status == .pending || b.status == .confirmed) &&
  overlapFilter start_time end_time b.start_time b.end_time &&
  (match exclude_booking_id with
   | none => true
   | some i => b.id != i)

/-- DeskService.check_booking_overlap.  The query result goes through
    scalar_one_or_none, so two or more matching rows raise
    MultipleResultsFound instead of producing a Bool. -/
def check_booking_overlap (db : DB) (floor_plan_id : Nat) (desk_label : String)
    (booking_date start_time end_time : Nat)
    (exclude_booking_id : Option Nat) : Except Exc Bool :=
  (scalarOneOrNone (db.desk_bookings.filter
      (matchesOverlap floor_plan_id desk_label booking_date start_time end_time
        exclude_booking_id))).map Option.isSome

/-- DeskService.get_booking_by_id (primary-key lookup). -/
def get_booking_by_id (db : DB) (booking_id : Nat) : Option DeskBooking :=
  db.desk_bookings.find? (fun b => b.id == booking_id)

inductive BookingErr
  | notFound | notOwner | overlap
  deriving DecidableEq, Repr

/-- DeskService.cancel_booking: returns the updated store and the error, if
    any (the source returns (ok, error) with ok = error is None). -/
def cancel_booking (db : DB) (booking_id : Nat) (user : User) :
    DB × Option BookingErr :=
  match get_booking_by_id db booking_id with
  | none => (db, some .notFound)
  | some booking =>
    if booking.user_id ≠ user.id ∧
        user.role ≠ .superAdmin ∧ user.role ≠ .admin then
      (db, some .notOwner)
    else
      ({ db with desk_bookings := db.desk_bookings.map (fun b =>
           if b.id == booking_id then { b with status := .cancelled } else b) },
       none)

/-- DeskBookingUpdate: fields present in the payload (exclude_unset). -/
structure BookingUpdate where
  start_time : Option Nat
  end_time : Option Nat
  status : Option BookingStatus
  notes : Option String
  deriving DecidableEq, Repr

/-- Apply the set fields of an update payload to a booking (the setattr
    loop over model_dump(exclude_unset=True)). -/
def applyUpdate (u : BookingUpdate) (b : DeskBooking) : DeskBooking :=
  { b with
    start_time := u.start_time.getD b.start_time
    end_time := u.end_time.getD b.end_time
    status := u.status.getD b.status
    notes := match u.notes with
             | some n => some n
             | none => b.notes }

/-- DeskService.update_booking.  The overlap re-check runs only when a
    start or end time is supplied, excludes the booking itself, and any
    MultipleResultsFound from it propagates. -/
def update_booking (db : DB) (booking_id : Nat) (upd : BookingUpdate)
    (user : User) : Except Exc (DB × Option BookingErr) :=
  match get_booking_by_id db booking_id with
  | none => .ok (db, some .notFound)
  | some booking =>
    if booking.user_id ≠ user.id ∧
        user.role ≠ .superAdmin ∧ user.role ≠ .admin then
      .ok (db, some .notOwner)
    else
      let s := upd.start_time.getD booking.start_time
      let e := upd.end_time.getD booking.end_time
      let finish := fun (hasOverlap : Bool) =>
        if hasOverlap then (db, some BookingErr.overlap)
        else
          ({ db with desk_bookings := db.desk_bookings.map (fun b =>
               if b.id == booking_id then applyUpdate upd b else b) },
           none)
      if upd.start_time.isSome || upd.end_time.isSome then
        (check_booking_overlap db booking.floor_plan_id booking.desk_label
            booking.booking_date s e (some booking_id)).map finish
      else
        .ok (finish false)

end DeskService

/-! ## CafeteriaService (unified-office-management copy) -/

namespace CafeteriaService

/-- Row filter of the overlap query in CafeteriaService.check_booking_overlap. -/
def matchesOverlap (floor_plan_id : Nat) (table_label : String)
    (booking_date start_time end_time : Nat) (exclude_booking_id : Option Nat)
    (b : CafeteriaTableBooking) : Bool :=
  b.floor_plan_id == floor_plan_id &&
  b.table_label == table_label &&
  b.booking_date == booking_date &&
  (b.status == .pending || b.status == .confirmed) &&
  overlapFilter start_time end_time b.start_time b.end_time &&
  (match exclude_booking_id with
   | none => true
   | some i => b.id != i)

/-- CafeteriaService.check_booking_overlap (same scalar_one_or_none shape as
    the desk service). -/
def check_booking_overlap (db : DB) (floor_plan_id : Nat) (table_label : String)
    (booking_date start_time end_time : Nat)
    (exclude_booking_id : Option Nat) : Except Exc Bool :=
  (scalarOneOrNone (db.caf_bookings.filter
      (matchesOverlap floor_plan_id table_label booking_date start_time end_time
        exclude_booking_id))).map Option.isSome

/-- CafeteriaService.get_booking_by_id. -/
def get_booking_by_id (db : DB) (booking_id : Nat) : Option CafeteriaTableBooking :=
  db.caf_bookings.find? (fun b => b.id == booking_id)

/-- CafeteriaService.cancel_booking. -/
def cancel_booking (db : DB) (booking_id : Nat) (user : User) :
    DB × Option DeskService.BookingErr :=
  match get_booking_by_id db booking_id with
  | none => (db, some .notFound)
  | some booking =>
    if booking.user_id ≠ user.id ∧
        user.role ≠ .superAdmin ∧ user.role ≠ .admin then
      (db, some .notOwner)
    else
      ({ db with caf_bookings := db.caf_bookings.map (fun b =>
           if b.id == booking_id then { b with status := .cancelled } else b) },
       none)

end CafeteriaService

/-! ## FloorPlanService create operations -/

namespace FloorPlanService

inductive PlanErr
  | notFound | forbidden | duplicateName | invalidGrid (e : GridError)
  deriving DecidableEq, Repr

/-- FloorPlanService.create_floor_plan.  The new plan gets a fresh id
    (uuid4 in the source), passed here as newPlanId; the plan starts at
    current_version 1 with an initial version row. -/
def create_floor_plan (db : DB) (name : String) (plan_type : FloorPlanType)
    (rows columns : Nat) (grid_data : List (List Cell)) (created_by : User)
    (newPlanId : Nat) : Except Exc (DB × Option FloorPlan × Option PlanErr) :=
  if !can_manage_plan_type created_by plan_type then
    .ok (db, none, some .forbidden)
  else
    match scalarOneOrNone (db.plans.filter (fun p =>
        p.name == name && p.plan_type == plan_type)) with
    | .error e => .error e
    | .ok existing =>
      if existing.isSome then
        .ok (db, none, some .duplicateName)
      else
        match validate_grid_data grid_data rows columns plan_type with
        | some e => .ok (db, none, some (.invalidGrid e))
        | none =>
          let plan : FloorPlan :=
            { id := newPlanId, name, plan_type, rows, columns,
              current_version := 1, is_active := true,
              created_by_id := created_by.id }
          let ver : FloorPlanVersion :=
            { floor_plan_id := newPlanId, version := 1, grid_data,
              is_active := true, created_by_id := created_by.id,
              change_notes := some "Initial version" }
          .ok ({ db with plans := db.plans ++ [plan],
                         versions := db.versions ++ [ver] },
               some plan, none)

/-- FloorPlanService.create_version: validates against the plan's stored
    dimensions and type, assigns current_version + 1, and writes the new
    version together with the bumped counter. -/
def create_version (db : DB) (floor_plan_id : Nat) (grid_data : List (List Cell))
    (change_notes : Option String) (created_by : User) :
    DB × Option FloorPlanVersion × Option PlanErr :=
  match get_floor_plan_by_id db floor_plan_id with
  | none => (db, none, some .notFound)
  | some plan =>
    if !can_manage_plan_type created_by plan.plan_type then
      (db, none, some .forbidden)
    else
      match validate_grid_data grid_data plan.rows plan.columns plan.plan_type with
      | some e => (db, none, some (.invalidGrid e))
      | none =>
        let n := plan.current_version + 1
        let ver : FloorPlanVersion :=
          { floor_plan_id, version := n, grid_data, is_active := true,
            created_by_id := created_by.id, change_notes }
        ({ db with
            plans := db.plans.map (fun p =>
              if p.id == floor_plan_id then { p with current_version := n } else p),
            versions := db.versions ++ [ver] },
         some ver, none)

end FloorPlanService

/-! ## ParkingService -/

/-- A row/column/label hit from a grid scan (the dicts built by
    get_available_slots). -/
structure SlotInfo where
  row : Nat
  col : Nat
  label : String
  direction : Option String
  deriving DecidableEq, Repr

/-- cell.get("label", f"Slot-{row}-{col}"). -/
def slotLabelOf (cell : Cell) (r c : Nat) : String :=
  cell.label.getD ("Slot-" ++ toString r ++ "-" ++ toString c)

/-- Inner loop of the available-slot scan over one row (running column
    index c): keep parking_slot cells whose label is not occupied. -/
def slotScanRow (occupied : List String) (r : Nat) (c : Nat) :
    List Cell → List SlotInfo
  | [] => []
  | cell :: rest =>
    if cell.cell_type == some "parking_slot" then
      let lbl := slotLabelOf cell r c
      if occupied.contains lbl then slotScanRow occupied r (c + 1) rest
      else ⟨r, c, lbl, cell.direction⟩ :: slotScanRow occupied r (c + 1) rest
    else slotScanRow occupied r (c + 1) rest

/-- Outer loop of the available-slot scan (running row index r): row-major
    enumeration of the grid. -/
def slotScan (occupied : List String) (r : Nat) :
    List (List Cell) → List SlotInfo
  | [] => []
  | row :: rest => slotScanRow occupied r 0 row ++ slotScan occupied (r + 1) rest

/-- Inner loop of the label search in assign_visitor_slot. -/
def findLabelRow (lbl : String) (c : Nat) : List Cell → Option Nat
  | [] => none
  | cell :: rest =>
    if cell.label == some lbl then some c else findLabelRow lbl (c + 1) rest

/-- Row-major first cell whose label equals lbl (any cell type). -/
def findLabelPos (lbl : String) (r : Nat) :
    List (List Cell) → Option (Nat × Nat)
  | [] => none
  | row :: rest =>
    match findLabelRow lbl 0 row with
    | some c => some (r, c)
    | none => findLabelPos lbl (r + 1) rest

/-- The phone pattern of assign_visitor_slot:
    an optional leading plus, then 10 to 15 characters that are ASCII
    digits, whitespace, or hyphens. -/
def phoneOk (s : String) : Bool :=
  let t := match s.data with
           | '+' :: rest => rest
           | l => l
  decide (10 ≤ t.length) && decide (t.length ≤ 15) &&
  t.all (fun ch => ch.isDigit || ch.isWhitespace || ch == '-')

/-- Truthiness of an optional string (None and the empty string are falsy). -/
def optStrTruthy : Option String → Bool
  | none => false
  | some s => !s.data.isEmpty

namespace ParkingService

/-- ParkingService.can_manage_parking. -/
def can_manage_parking (user : User) : Bool :=
  if user.role = .superAdmin then true
  else if user.role = .admin then true
  else if user.role = .manager ∧ user.manager_type = some .parking then true
  else false

/-- ParkingService.get_allocation_by_id (primary-key lookup). -/
def get_allocation_by_id (db : DB) (allocation_id : Nat) :
    Option ParkingAllocation :=
  db.allocations.find? (fun a => a.id == allocation_id)

/-- ParkingService.get_parking_floor_plans: active parking plans. -/
def get_parking_floor_plans (db : DB) : List FloorPlan :=
  db.plans.filter (fun p => p.plan_type == .parking && p.is_active)

inductive SlotErr
  | notNumeric | floorPlanNotFound | notParkingPlan | versionNotFound
  | outOfBounds | notAParkingSlot
  deriving DecidableEq, Repr

/-- ParkingService.validate_parking_slot: none means valid.  Unlike the
    desk variant, the coordinate strings are required to be digit strings
    before anything else happens. -/
def validate_parking_slot (db : DB) (floor_plan_id : Nat)
    (cell_row cell_column : String) : Except Exc (Option SlotErr) :=
  if !(strIsDigit cell_row) || !(strIsDigit cell_column) then
    .ok (some .notNumeric)
  else
    match db.plans.find? (fun p => p.id == floor_plan_id) with
    | none => .ok (some .floorPlanNotFound)
    | some floor_plan =>
      if floor_plan.plan_type ≠ .parking then .ok (some .notParkingPlan)
      else
        match latestVersion db.versions floor_plan_id with
        | none => .ok (some .versionNotFound)
        | some version =>
          let row_idx := (pyToNat? cell_row).getD 0
          let col_idx := (pyToNat? cell_column).getD 0
          let grid := version.grid_data
          if grid.length ≤ row_idx then .ok (some .outOfBounds)
          else
            match grid.head? with
            | none => .error .indexError
            | some row0 =>
              if row0.length ≤ col_idx then .ok (some .outOfBounds)
              else
                match pyGet grid (row_idx : Int) with
                | none => .error .indexError
                | some row =>
                  match pyGet row (col_idx : Int) with
                  | none => .error .indexError
                  | some cell =>
                    if cell.cell_type ≠ some "parking_slot" then
                      .ok (some .notAParkingSlot)
                    else
                      .ok none

/-- ParkingService.check_user_active_parking: the active allocation of a
    user (is_active and no exit_time), through scalar_one_or_none. -/
def check_user_active_parking (db : DB) (user_id : Nat) :
    Except Exc (Option ParkingAllocation) :=
  scalarOneOrNone (db.allocations.filter (fun a =>
    a.user_id == some user_id && a.is_active && a.exit_time == none))

/-- ParkingService.check_slot_availability. -/
def check_slot_availability (db : DB) (floor_plan_id : Nat)
    (slot_label : String) : Except Exc Bool :=
  (scalarOneOrNone (db.allocations.filter (fun a =>
    a.floor_plan_id == floor_plan_id && a.slot_label == slot_label &&
    a.is_active && a.exit_time == none))).map Option.isNone

/-- The occupied-label set built inside get_available_slots. -/
def occupiedLabels (db : DB) (floor_plan_id : Nat) : List String :=
  (db.allocations.filter (fun a =>
    a.floor_plan_id == floor_plan_id && a.is_active &&
    a.exit_time == none)).map (fun a => a.slot_label)

/-- ParkingService.get_available_slots: row-major scan of the latest grid
    version for unoccupied parking_slot cells. -/
def get_available_slots (db : DB) (floor_plan_id : Nat) : List SlotInfo :=
  match db.plans.find? (fun p => p.id == floor_plan_id) with
  | none => []
  | some floor_plan =>
    if floor_plan.plan_type ≠ .parking then []
    else
      match latestVersion db.versions floor_plan_id with
      | none => []
      | some version =>
        slotScan (occupiedLabels db floor_plan_id) 0 version.grid_data

/-- The auto-assignment loop of assign_visitor_slot: first plan whose
    available list is non-empty, together with that list's first slot. -/
def firstAvailable (db : DB) (plans : List FloorPlan) :
    Option (FloorPlan × SlotInfo) :=
  plans.findSome? (fun fp =>
    (get_available_slots db fp.id).head?.map (fun s => (fp, s)))

structure VisitorParkingCreate where
  visitor_name : String
  visitor_phone : Option String
  visitor_company : Option String
  vehicle_number : Option String
  notes : Option String
  floor_plan_id : Option Nat
  slot_label : Option String
  deriving DecidableEq, Repr

inductive AssignErr
  | forbidden | nameInvalid | phoneInvalid | noParkingFloorPlans
  | invalidFloorPlan | slotNotAvailable | slotNotInGrid | noSlotsAvailable
  deriving DecidableEq, Repr

/-- ParkingService.assign_visitor_slot.  now is the injected clock value
    recorded as entry_time; newId the fresh allocation id. -/
def assign_visitor_slot (db : DB) (vd : VisitorParkingCreate)
    (assigned_by : User) (now : Int) (newId : Nat) :
    Except Exc (DB × Option ParkingAllocation × Option AssignErr) :=
  if !can_manage_parking assigned_by then
    .ok (db, none, some .forbidden)
  else if vd.visitor_name.data.isEmpty ||
      (stripChars vd.visitor_name.data).length < 2 then
    .ok (db, none, some .nameInvalid)
  else if optStrTruthy vd.visitor_phone &&
      !(phoneOk (vd.visitor_phone.getD "")) then
    .ok (db, none, some .phoneInvalid)
  else
    let floor_plans := get_parking_floor_plans db
    if floor_plans.isEmpty then
      .ok (db, none, some .noParkingFloorPlans)
    else
      let mk := fun (fpId : Nat) (r c : Nat) (lbl : String) =>
        ({ id := newId, floor_plan_id := fpId, slot_label := lbl,
           cell_row := toString r, cell_column := toString c,
           parking_type := .visitor, user_id := none,
           visitor_name := some (String.mk (stripChars vd.visitor_name.data)),
           visitor_phone := vd.visitor_phone,
           visitor_company := vd.visitor_company,
           vehicle_number := vd.vehicle_number, notes := vd.notes,
           entry_time := some now, exit_time := none,
           is_active := true } : ParkingAllocation)
      let auto := fun (_ : Unit) =>
        match firstAvailable db floor_plans with
        | none => Except.ok (db, none, some AssignErr.noSlotsAvailable)
        | some (fp, s) =>
          let alloc := mk fp.id s.row s.col s.label
          Except.ok ({ db with allocations := db.allocations ++ [alloc] },
                     some alloc, (none : Option AssignErr))
      match vd.floor_plan_id, vd.slot_label with
      | some fpId, some lbl =>
        if lbl == "" then
          -- falsy slot_label: fall through to auto-assignment
          auto ()
        else
          match scalarOneOrNone (db.plans.filter (fun p =>
              p.id == fpId && p.plan_type == .parking)) with
          | .error e => .error e
          | .ok none => .ok (db, none, some .invalidFloorPlan)
          | .ok (some _) =>
            match check_slot_availability db fpId lbl with
            | .error e => .error e
            | .ok avail =>
              if !avail then .ok (db, none, some .slotNotAvailable)
              else
                let pos :=
                  match latestVersion db.versions fpId with
                  | none => none
                  | some version => findLabelPos lbl 0 version.grid_data
                match pos with
                | none => .ok (db, none, some .slotNotInGrid)
                | some (r, c) =>
                  let alloc := mk fpId r c lbl
                  .ok ({ db with allocations := db.allocations ++ [alloc] },
                       some alloc, none)
      | _, _ => auto ()

structure ParkingAllocationCreate where
  floor_plan_id : Nat
  slot_label : String
  cell_row : String
  cell_column : String
  parking_type : ParkingType
  user_id : Option Nat
  visitor_name : Option String
  visitor_phone : Option String
  visitor_company : Option String
  vehicle_number : Option String
  notes : Option String
  deriving DecidableEq, Repr

inductive AllocErr
  | invalidSlot (e : SlotErr) | slotOccupied | userIdRequired
  | userAlreadyAllocated | visitorForbidden | visitorNameRequired
  deriving DecidableEq, Repr

/-- ParkingService.create_allocation.  newId is the fresh allocation id;
    the new allocation starts active with no entry or exit time. -/
def create_allocation (db : DB) (ad : ParkingAllocationCreate)
    (created_by : User) (newId : Nat) :
    Except Exc (DB × Option ParkingAllocation × Option AllocErr) :=
  match validate_parking_slot db ad.floor_plan_id ad.cell_row ad.cell_column with
  | .error e => .error e
  | .ok (some e) => .ok (db, none, some (.invalidSlot e))
  | .ok none =>
    match check_slot_availability db ad.floor_plan_id ad.slot_label with
    | .error e => .error e
    | .ok avail =>
      if !avail then
        .ok (db, none, some .slotOccupied)
      else
        let mkNew := fun (_ : Unit) =>
          let alloc : ParkingAllocation :=
            { id := newId, floor_plan_id := ad.floor_plan_id,
              slot_label := ad.slot_label, cell_row := ad.cell_row,
              cell_column := ad.cell_column, parking_type := ad.parking_type,
              user_id := ad.user_id, visitor_name := ad.visitor_name,
              visitor_phone := ad.visitor_phone,
              visitor_company := ad.visitor_company,
              vehicle_number := ad.vehicle_number, notes := ad.notes,
              entry_time := none, exit_time := none, is_active := true }
          (({ db with allocations := db.allocations ++ [alloc] } : DB),
           some alloc, (none : Option AllocErr))
        match ad.parking_type with
        | .employee =>
          match ad.user_id with
          | none => .ok (db, none, some .userIdRequired)
          | some uid =>
            match check_user_active_parking db uid with
            | .error e => .error e
            | .ok existing =>
              if existing.isSome then
                .ok (db, none, some .userAlreadyAllocated)
              else
                .ok (mkNew ())
        | .visitor =>
          if !can_manage_parking created_by then
            .ok (db, none, some .visitorForbidden)
          else if !(optStrTruthy ad.visitor_name) then
            .ok (db, none, some .visitorNameRequired)
          else
            .ok (mkNew ())

inductive ParkErr
  | allocationNotFound | entryAlreadyRecorded | visitorExitForbidden
  | noEntryRecorded | exitAlreadyRecorded
  deriving DecidableEq, Repr

/-- ParkingService.record_entry: timestamp or now() becomes entry_time. -/
def record_entry (db : DB) (allocation_id : Nat) (timestamp : Option Int)
    (now : Int) : DB × Option ParkingAllocation × Option ParkErr :=
  match get_allocation_by_id db allocation_id with
  | none => (db, none, some .allocationNotFound)
  | some allocation =>
    if allocation.entry_time.isSome then
      (db, none, some .entryAlreadyRecorded)
    else
      let t := timestamp.getD now
      let a := { allocation with entry_time := some t }
      ({ db with allocations := db.allocations.map (fun x =>
           if x.id == allocation_id then a else x) },
       some a, none)

/-- ParkingService.record_exit: checks visitor permission, then entry
    recorded, then exit not yet recorded; on success flips is_active,
    stores exit_time, and appends a history row whose duration_minutes is
    str(int((exit - entry).total_seconds() / 60)), i.e. the string of the
    toward-zero quotient. -/
def record_exit (db : DB) (allocation_id : Nat) (recorded_by : User)
    (timestamp : Option Int) (now : Int) :
    DB × Option ParkingAllocation × Option ParkErr :=
  match get_allocation_by_id db allocation_id with
  | none => (db, none, some .allocationNotFound)
  | some allocation =>
    if allocation.parking_type == .visitor &&
        !can_manage_parking recorded_by then
      (db, none, some .visitorExitForbidden)
    else
      match allocation.entry_time with
      | none => (db, none, some .noEntryRecorded)
      | some entry =>
        if allocation.exit_time.isSome then
          (db, none, some .exitAlreadyRecorded)
        else
          let ex := timestamp.getD now
          let a := { allocation with exit_time := some ex, is_active := false }
          let dur : Int := Int.tdiv (ex - entry) 60
          let h : ParkingHistory :=
            { allocation_id := allocation.id,
              floor_plan_id := allocation.floor_plan_id,
              slot_label := allocation.slot_label,
              parking_type := allocation.parking_type,
              user_id := allocation.user_id,
              visitor_name := allocation.visitor_name,
              vehicle_number := allocation.vehicle_number,
              entry_time := entry, exit_time := ex,
              duration_minutes := toString dur }
          ({ db with
              allocations := db.allocations.map (fun x =>
                if x.id == allocation_id then a else x),
              parking_history := db.parking_history ++ [h] },
           some a, none)

end ParkingService

/-! ## Concrete stores used by counterexamples and witnesses -/

/-- An always-valid desk cell. -/
def deskCell : Cell := ⟨some "desk", some "D1", none, none⟩

/-- A wall cell. -/
def wallCell : Cell := ⟨some "wall", none, none, none⟩

/-- Two confirmed bookings for desk D1 on the same plan and date, at
    [540, 600) and [660, 720) minutes: non-overlapping with each other. -/
def twoBookingDB : DB :=
  { plans := [], versions := [],
    desk_bookings :=
      [⟨1, 1, "D1", "1", "1", 10, 0, 540, 600, .confirmed, none⟩,
       ⟨2, 1, "D1", "1", "1", 11, 0, 660, 720, .confirmed, none⟩],
    caf_bookings := [], allocations := [], parking_history := [] }

/-- Cafeteria analogue of twoBookingDB. -/
def twoBookingCafDB : DB :=
  { plans := [], versions := [], desk_bookings := [],
    caf_bookings :=
      [⟨1, 1, "T1", "1", "1", 10, 0, 540, 600, 2, .confirmed, none⟩,
       ⟨2, 1, "T1", "1", "1", 11, 0, 660, 720, 2, .confirmed, none⟩],
    allocations := [], parking_history := [] }

/-- A desk-area plan whose only version is a 2 by 2 all-desk grid. -/
def deskGridDB : DB :=
  { plans := [⟨1, "F", .deskArea, 2, 2, 1, true, 1⟩],
    versions := [⟨1, 1, [[deskCell, deskCell], [deskCell, deskCell]], true, 1, none⟩],
    desk_bookings := [], caf_bookings := [], allocations := [],
    parking_history := [] }

/-! ## Claim C8: the domain access gate -/

/-- Claim C8: can_manage_plan_type is a pure function of the actor's role
    and manager-type attribute; SUPER_ADMIN and ADMIN always pass, a
    MANAGER passes exactly when their manager type is the one the fixed
    1:1 table assigns to the plan type, and every other role is refused. -/
theorem claim_C8_domain_gate :
    (∀ (u : User) (pt : FloorPlanType),
        u.role = .superAdmin ∨ u.role = .admin →
        FloorPlanService.can_manage_plan_type u pt = true)
    ∧ (∀ (u : User) (pt : FloorPlanType),
        u.role = .manager →
        (FloorPlanService.can_manage_plan_type u pt = true ↔
          u.manager_type = PLAN_TYPE_TO_MANAGER_TYPE pt))
    ∧ PLAN_TYPE_TO_MANAGER_TYPE .deskArea = some .deskConference
    ∧ PLAN_TYPE_TO_MANAGER_TYPE .cafeteria = some .cafeteria
    ∧ PLAN_TYPE_TO_MANAGER_TYPE .parking = some .parking
    ∧ (∀ (u : User) (pt : FloorPlanType),
        u.role ≠ .superAdmin → u.role ≠ .admin → u.role ≠ .manager →
        FloorPlanService.can_manage_plan_type u pt = false)
    ∧ (∀ (u v : User) (pt : FloorPlanType),
        u.role = v.role → u.manager_type = v.manager_type →
        FloorPlanService.can_manage_plan_type u pt =
          FloorPlanService.can_manage_plan_type v pt) := by
  refine ⟨?_, ?_, rfl, rfl, rfl, ?_, ?_⟩
  · intro u pt h
    rcases h with h | h <;> simp [FloorPlanService.can_manage_plan_type, h]
  · intro u pt h
    cases hm : u.manager_type with
    | none =>
      simp [FloorPlanService.can_manage_plan_type, h, hm]
      cases pt <;> simp [PLAN_TYPE_TO_MANAGER_TYPE]
    | some m =>
      simp [FloorPlanService.can_manage_plan_type, h, hm]
  · intro u pt h1 h2 h3
    simp [FloorPlanService.can_manage_plan_type, h1, h2, h3]
  · intro u v pt h1 h2
    simp only [FloorPlanService.can_manage_plan_type, h1, h2]

/-- Witness for C8 at concrete actors. -/
theorem claim_C8_domain_gate_witness :
    FloorPlanService.can_manage_plan_type ⟨1, .admin, none⟩ .parking = true
    ∧ (FloorPlanService.can_manage_plan_type
        ⟨2, .manager, some .cafeteria⟩ .cafeteria = true ↔
        (some ManagerType.cafeteria : Option ManagerType) =
          PLAN_TYPE_TO_MANAGER_TYPE .cafeteria)
    ∧ FloorPlanService.can_manage_plan_type ⟨3, .employee, none⟩ .deskArea = false :=
  ⟨claim_C8_domain_gate.1 ⟨1, .admin, none⟩ .parking (Or.inr rfl),
   claim_C8_domain_gate.2.1 ⟨2, .manager, some .cafeteria⟩ .cafeteria rfl,
   claim_C8_domain_gate.2.2.2.2.2.1 ⟨3, .employee, none⟩ .deskArea
     (by decide) (by decide) (by decide)⟩

/-! ## Claim C1: the interval conflict engine -/

/-- The three-disjunct query filter agrees with the canonical half-open
    overlap rule on genuine intervals. -/
theorem overlapFilter_eq_canonical (s e bs be : Nat) (hs : s < e)
    (hb : bs < be) : overlapFilter s e bs be = canonicalOverlap s e bs be := by
  rw [Bool.eq_iff_iff]
  simp only [overlapFilter, canonicalOverlap, Bool.or_eq_true, Bool.and_eq_true,
    decide_eq_true_eq]
  omega

/-- Claim C1 (code bug): on the failing input, two existing confirmed
    non-overlapping bookings both overlap the candidate window and the
    engine raises MultipleResultsFound instead of returning true, for the
    desk and the cafeteria copy alike; the three-disjunct predicate is
    equivalent to the canonical rule on genuine intervals, the engine does
    return the boolean existence answer whenever at most one row matches,
    and the touching / containment examples behave as the spec says. -/
theorem claim_C1_overlap_engine :
    (DeskService.check_booking_overlap twoBookingDB 1 "D1" 0 540 720 none =
      .error .multipleResultsFound)
    ∧ (∀ b ∈ twoBookingDB.desk_bookings,
        b.status = .confirmed ∧
        canonicalOverlap 540 720 b.start_time b.end_time = true)
    ∧ (CafeteriaService.check_booking_overlap twoBookingCafDB 1 "T1" 0 540 720
        none = .error .multipleResultsFound)
    ∧ (∀ s e bs be : Nat, s < e → bs < be →
        overlapFilter s e bs be = canonicalOverlap s e bs be)
    ∧ (∀ db fp lbl d s e excl,
        (db.desk_bookings.filter
          (DeskService.matchesOverlap fp lbl d s e excl)).length ≤ 1 →
        (DeskService.check_booking_overlap db fp lbl d s e excl = .ok true ↔
          ∃ b ∈ db.desk_bookings,
            DeskService.matchesOverlap fp lbl d s e excl b = true))
    ∧ overlapFilter 540 600 600 660 = false
    ∧ overlapFilter 540 720 600 660 = true
    ∧ overlapFilter 600 660 540 720 = true := by
  refine ⟨by decide, by decide, by decide, overlapFilter_eq_canonical, ?_,
    by decide, by decide, by decide⟩
  intro db fp lbl d s e excl h
  unfold DeskService.check_booking_overlap
  rcases hf : db.desk_bookings.filter
      (DeskService.matchesOverlap fp lbl d s e excl) with _ | ⟨a, _ | ⟨b, t⟩⟩
  · simp only [hf, scalarOneOrNone, Except.map, Option.isSome]
    constructor
    · intro hcontra
      cases hcontra
    · rintro ⟨b, hb, hm⟩
      have : b ∈ db.desk_bookings.filter
          (DeskService.matchesOverlap fp lbl d s e excl) :=
        List.mem_filter.mpr ⟨hb, hm⟩
      rw [hf] at this
      exact absurd this (List.not_mem_nil b)
  · simp only [hf, scalarOneOrNone, Except.map, Option.isSome]
    constructor
    · intro _
      have ha : a ∈ db.desk_bookings.filter
          (DeskService.matchesOverlap fp lbl d s e excl) := by
        rw [hf]; exact List.mem_singleton_self a
      exact ⟨a, (List.mem_filter.mp ha).1, (List.mem_filter.mp ha).2⟩
    · intro _
      trivial
  · rw [hf] at h
    simp at h

/-- Witness for the hypothesis-bearing parts of C1 at concrete inputs. -/
theorem claim_C1_overlap_engine_witness :
    overlapFilter 540 600 570 630 = canonicalOverlap 540 600 570 630
    ∧ (DeskService.check_booking_overlap twoBookingDB 1 "D1" 0 600 660 none =
        .ok true ↔
      ∃ b ∈ twoBookingDB.desk_bookings,
        DeskService.matchesOverlap 1 "D1" 0 600 660 none b = true) :=
  ⟨claim_C1_overlap_engine.2.2.2.1 540 600 570 630 (by decide) (by decide),
   claim_C1_overlap_engine.2.2.2.2.1 twoBookingDB 1 "D1" 0 600 660 none
     (by decide)⟩

/-! ## Claim C6: terminal booking states -/

/-- A store holding one already-CANCELLED desk booking and one
    already-CANCELLED cafeteria booking, both owned by user 10. -/
def terminalDB : DB :=
  { plans := [], versions := [],
    desk_bookings := [⟨1, 1, "D1", "1", "1", 10, 0, 540, 600, .cancelled, none⟩],
    caf_bookings := [⟨1, 1, "T1", "1", "1", 10, 0, 540, 600, 2, .cancelled, none⟩],
    allocations := [], parking_history := [] }

/-- The owner of the bookings in terminalDB. -/
def ownerUser : User := ⟨10, .employee, none⟩

/-- Claim C6 is false on the code: cancelling an already-CANCELLED booking
    is accepted without any error, in the desk service and in the
    cafeteria service alike, instead of being rejected as an invalid
    state. -/
theorem claim_C6_counterexample :
    ((DeskService.get_booking_by_id terminalDB 1).map
      (fun b => b.status) = some .cancelled)
    ∧ (DeskService.cancel_booking terminalDB 1 ownerUser).2 = none
    ∧ (DeskService.cancel_booking terminalDB 1 ownerUser).1 = terminalDB
    ∧ ((CafeteriaService.get_booking_by_id terminalDB 1).map
      (fun b => b.status) = some .cancelled)
    ∧ (CafeteriaService.cancel_booking terminalDB 1 ownerUser).2 = none := by
  decide

/-- Claim C6 as amended: cancel_booking checks only existence and
    ownership; for any existing booking whose caller is the owner or an
    admin it reports success and sets the status to CANCELLED regardless
    of the current status, so cancelling a CANCELLED or COMPLETED booking
    is silently accepted. -/
theorem claim_C6_amended :
    (∀ db bid (u : User) b,
      DeskService.get_booking_by_id db bid = some b →
      (b.user_id = u.id ∨ u.role = .superAdmin ∨ u.role = .admin) →
      (DeskService.cancel_booking db bid u).2 = none ∧
      (DeskService.cancel_booking db bid u).1.desk_bookings =
        db.desk_bookings.map (fun x =>
          if x.id == bid then { x with status := BookingStatus.cancelled }
          else x))
    ∧ (∀ db bid (u : User) b,
      CafeteriaService.get_booking_by_id db bid = some b →
      (b.user_id = u.id ∨ u.role = .superAdmin ∨ u.role = .admin) →
      (CafeteriaService.cancel_booking db bid u).2 = none ∧
      (CafeteriaService.cancel_booking db bid u).1.caf_bookings =
        db.caf_bookings.map (fun x =>
          if x.id == bid then { x with status := BookingStatus.cancelled }
          else x)) := by
  constructor
  · intro db bid u b hfind h
    have hc : ¬(b.user_id ≠ u.id ∧
        u.role ≠ UserRole.superAdmin ∧ u.role ≠ UserRole.admin) := by tauto
    simp only [DeskService.cancel_booking, hfind, if_neg hc]
    exact ⟨trivial, trivial⟩
  · intro db bid u b hfind h
    have hc : ¬(b.user_id ≠ u.id ∧
        u.role ≠ UserRole.superAdmin ∧ u.role ≠ UserRole.admin) := by tauto
    simp only [CafeteriaService.cancel_booking, hfind, if_neg hc]
    exact ⟨trivial, trivial⟩

/-- Witness for the amended C6 on the concrete already-cancelled store. -/
theorem claim_C6_amended_witness :
    (DeskService.cancel_booking terminalDB 1 ownerUser).2 = none
    ∧ (CafeteriaService.cancel_booking terminalDB 1 ownerUser).2 = none :=
  ⟨(claim_C6_amended.1 terminalDB 1 ownerUser
      ⟨1, 1, "D1", "1", "1", 10, 0, 540, 600, .cancelled, none⟩
      (by decide) (Or.inl (by decide))).1,
   (claim_C6_amended.2 terminalDB 1 ownerUser
      ⟨1, 1, "T1", "1", "1", 10, 0, 540, 600, 2, .cancelled, none⟩
      (by decide) (Or.inl (by decide))).1⟩

/-! ## Claim C10: booking ownership -/

/-- Claim C10: for an existing booking, an actor who is neither the owner
    nor ADMIN nor SUPER_ADMIN gets the ownership error from both
    update_booking and cancel_booking, and the store is returned
    unchanged. -/
theorem claim_C10_ownership :
    ∀ db bid (u : User) b upd,
      DeskService.get_booking_by_id db bid = some b →
      b.user_id ≠ u.id → u.role ≠ .superAdmin → u.role ≠ .admin →
      DeskService.update_booking db bid upd u = .ok (db, some .notOwner)
      ∧ DeskService.cancel_booking db bid u = (db, some .notOwner) := by
  intro db bid u b upd hfind h1 h2 h3
  constructor
  · simp only [DeskService.update_booking, hfind]
    rw [if_pos (And.intro h1 (And.intro h2 h3))]
  · simp only [DeskService.cancel_booking, hfind]
    rw [if_pos (And.intro h1 (And.intro h2 h3))]

/-- Witness for C10: a stranger tries to update and cancel a booking of
    user 10. -/
theorem claim_C10_ownership_witness :
    DeskService.update_booking terminalDB 1 ⟨none, none, none, none⟩
      ⟨99, .employee, none⟩ = .ok (terminalDB, some .notOwner)
    ∧ DeskService.cancel_booking terminalDB 1 ⟨99, .employee, none⟩ =
      (terminalDB, some .notOwner) :=
  claim_C10_ownership terminalDB 1 ⟨99, .employee, none⟩
    ⟨1, 1, "D1", "1", "1", 10, 0, 540, 600, .cancelled, none⟩
    ⟨none, none, none, none⟩ (by decide) (by decide) (by decide) (by decide)

/-! ## Claim C7: coordinate validation -/

/-- Claim C7 is false on the code: the desk validator accepts the
    coordinate pair (-1, 0), which is outside the non-negative index
    range of the 2 by 2 grid, and returns success (Python indexes the
    grid from the end) instead of the out-of-bounds error. -/
theorem claim_C7_counterexample :
    pyToInt? "-1" = some (-1)
    ∧ DeskService.validate_desk_cell deskGridDB 1 "-1" "0" =
        .ok (.valid 1) := by
  decide

/-- Claim C7 as amended: the parking validator rejects non-digit (hence
    also negative) coordinate strings before touching the grid and
    reports over-bounds digits with the distinct out-of-bounds error; the
    desk validator checks only the upper bounds after int parsing, so
    non-negative over-bounds coordinates get the out-of-bounds error but
    a negative coordinate passes the check and the grid is indexed from
    the end, the result being whatever the reached cell dictates. -/
theorem claim_C7_amended :
    (∀ db fp r c, (strIsDigit r = false ∨ strIsDigit c = false) →
      ParkingService.validate_parking_slot db fp r c = .ok (some .notNumeric))
    ∧ (∀ db fp r c plan version,
        strIsDigit r = true → strIsDigit c = true →
        db.plans.find? (fun p => p.id == fp) = some plan →
        plan.plan_type = .parking →
        latestVersion db.versions fp = some version →
        (version.grid_data.length ≤ (pyToNat? r).getD 0 →
          ParkingService.validate_parking_slot db fp r c =
            .ok (some .outOfBounds))
        ∧ (∀ row0, version.grid_data.head? = some row0 →
            (pyToNat? r).getD 0 < version.grid_data.length →
            row0.length ≤ (pyToNat? c).getD 0 →
            ParkingService.validate_parking_slot db fp r c =
              .ok (some .outOfBounds)))
    ∧ (∀ db fp r c ri ci version,
        latestVersion db.versions fp = some version →
        pyToInt? r = some ri → pyToInt? c = some ci →
        (((version.grid_data.length : Int) ≤ ri →
          DeskService.validate_desk_cell db fp r c = .ok (.invalid .outOfBounds))
        ∧ (∀ row0, version.grid_data.head? = some row0 →
            ri < (version.grid_data.length : Int) →
            (row0.length : Int) ≤ ci →
            DeskService.validate_desk_cell db fp r c =
              .ok (.invalid .outOfBounds))))
    ∧ (∀ db fp r c ri ci version row cell row0,
        latestVersion db.versions fp = some version →
        pyToInt? r = some ri → pyToInt? c = some ci →
        ri < 0 →
        version.grid_data.head? = some row0 →
        ci < (row0.length : Int) →
        pyGet version.grid_data ri = some row →
        pyGet row ci = some cell →
        DeskService.validate_desk_cell db fp r c =
          .ok (inspectDeskCell cell version.version)) := by
  refine ⟨?_, ?_, ?_, ?_⟩
  · intro db fp r c h
    rcases h with h | h <;>
      simp [ParkingService.validate_parking_slot, h]
  · intro db fp r c plan version hr hc hfind hpt hver
    constructor
    · intro hbound
      simp only [ParkingService.validate_parking_slot, hfind, hver]
      rw [if_neg (by simp [hr, hc]), if_neg (by simp [hpt]), if_pos hbound]
    · intro row0 hrow0 hlt hbound
      simp only [ParkingService.validate_parking_slot, hfind, hver]
      rw [if_neg (by simp [hr, hc]), if_neg (by simp [hpt]),
        if_neg (by omega : ¬(version.grid_data.length ≤ (pyToNat? r).getD 0))]
      simp only [hrow0]
      rw [if_pos hbound]
  · intro db fp r c ri ci version hver hr hc
    constructor
    · intro hbound
      simp only [DeskService.validate_desk_cell, hver, hr, hc]
      rw [if_pos hbound]
    · intro row0 hrow0 hlt hbound
      simp only [DeskService.validate_desk_cell, hver, hr, hc]
      rw [if_neg (by omega : ¬((version.grid_data.length : Int) ≤ ri))]
      simp only [hrow0]
      rw [if_pos hbound]
  · intro db fp r c ri ci version row cell row0 hver hr hc hneg hrow0 hcb hg hrc
    simp only [DeskService.validate_desk_cell, hver, hr, hc]
    rw [if_neg (by omega : ¬((version.grid_data.length : Int) ≤ ri))]
    simp only [hrow0]
    rw [if_neg (by omega : ¬((row0.length : Int) ≤ ci))]
    simp only [hg, hrc]

/-- Witness for the amended C7: the parking validator refuses "-1" as
    non-numeric and reports (5, 0) on a 2 by 2 parking grid as
    out-of-bounds, the desk validator reports (5, 0) as out-of-bounds,
    and the desk validator at (-1, 0) reaches the last row's first cell. -/
theorem claim_C7_amended_witness :
    ParkingService.validate_parking_slot deskGridDB 1 "-1" "0" =
      .ok (some .notNumeric)
    ∧ DeskService.validate_desk_cell deskGridDB 1 "5" "0" =
      .ok (.invalid .outOfBounds)
    ∧ DeskService.validate_desk_cell deskGridDB 1 "-1" "0" =
      .ok (inspectDeskCell deskCell 1) :=
  ⟨claim_C7_amended.1 deskGridDB 1 "-1" "0" (Or.inl (by decide)),
   (claim_C7_amended.2.2.1 deskGridDB 1 "5" "0" 5 0
      ⟨1, 1, [[deskCell, deskCell], [deskCell, deskCell]], true, 1, none⟩
      (by decide) (by decide) (by decide)).1 (by decide),
   claim_C7_amended.2.2.2 deskGridDB 1 "-1" "0" (-1) 0
      ⟨1, 1, [[deskCell, deskCell], [deskCell, deskCell]], true, 1, none⟩
      [deskCell, deskCell] deskCell [deskCell, deskCell]
      (by decide) (by decide) (by decide) (by decide) (by decide) (by decide)
      (by decide) (by decide)⟩

/-! ## Claim C5: entry / exit recording -/

/-- An active employee allocation with entry recorded at second 100 and no
    exit. -/
def entryAlloc : ParkingAllocation :=
  { id := 1, floor_plan_id := 1, slot_label := "P1", cell_row := "1",
    cell_column := "1", parking_type := .employee, user_id := some 10,
    visitor_name := none, visitor_phone := none, visitor_company := none,
    vehicle_number := none, notes := none, entry_time := some 100,
    exit_time := none, is_active := true }

/-- Store holding entryAlloc only. -/
def entryDB : DB :=
  { plans := [], versions := [], desk_bookings := [], caf_bookings := [],
    allocations := [entryAlloc], parking_history := [] }

/-- Store holding an allocation with no entry recorded. -/
def noEntryDB : DB :=
  { plans := [], versions := [], desk_bookings := [], caf_bookings := [],
    allocations := [{ entryAlloc with entry_time := none }],
    parking_history := [] }

/-- Store holding an allocation whose exit is already recorded. -/
def exitedDB : DB :=
  { plans := [], versions := [], desk_bookings := [], caf_bookings := [],
    allocations := [{ entryAlloc with exit_time := some 200, is_active := false }],
    parking_history := [] }

/-- The visitor-permission guard of record_exit is off for employee
    allocations and for callers who can manage parking. -/
theorem visitorGuardFalse (a : ParkingAllocation) (u : User)
    (h : a.parking_type = .employee ∨ ParkingService.can_manage_parking u = true) :
    (a.parking_type == ParkingType.visitor &&
      !ParkingService.can_manage_parking u) = false := by
  rcases h with h | h <;> simp [h]

/-- Evaluation of a successful record_exit: exit_time stored, allocation
    deactivated, history row appended with the truncated duration. -/
theorem record_exit_success (db : DB) (aid : Nat) (u : User)
    (ts : Option Int) (now : Int) (a : ParkingAllocation) (entry : Int)
    (hfind : ParkingService.get_allocation_by_id db aid = some a)
    (hperm : a.parking_type = .employee ∨
      ParkingService.can_manage_parking u = true)
    (hentry : a.entry_time = some entry) (hexit : a.exit_time = none) :
    ParkingService.record_exit db aid u ts now =
      ({ db with
          allocations := db.allocations.map (fun x =>
            if x.id == aid then
              { a with exit_time := some (ts.getD now), is_active := false }
            else x),
          parking_history := db.parking_history ++
            [{ allocation_id := a.id, floor_plan_id := a.floor_plan_id,
               slot_label := a.slot_label, parking_type := a.parking_type,
               user_id := a.user_id, visitor_name := a.visitor_name,
               vehicle_number := a.vehicle_number, entry_time := entry,
               exit_time := ts.getD now,
               duration_minutes :=
                 toString (Int.tdiv (ts.getD now - entry) 60) }] },
       some { a with exit_time := some (ts.getD now), is_active := false },
       none) := by
  simp only [ParkingService.record_exit, hfind, visitorGuardFalse a u hperm,
    Bool.false_eq_true, if_false, hentry, hexit, Option.isSome_none,
    Bool.false_eq_true]

/-- Claim C5 is false on the code as stated: an explicit exit timestamp
    (second 10) earlier than the recorded entry (second 100) is accepted,
    not rejected as an invalid state, and the stored duration is the
    toward-zero truncation -1 rather than floor((10-100)/60) = -2. -/
theorem claim_C5_counterexample :
    ((ParkingService.record_exit entryDB 1 ownerUser (some 10) 0).2.2 = none)
    ∧ ((ParkingService.record_exit entryDB 1 ownerUser (some 10) 0).1.parking_history.map
        (fun h => h.duration_minutes) = ["-1"])
    ∧ Int.tdiv (10 - 100) 60 = -1
    ∧ Int.fdiv (10 - 100) 60 = -2 := by
  decide

/-- Claim C5 as amended: record_entry rejects a second entry; record_exit
    rejects an exit with no recorded entry and a second exit, each leaving
    the store unchanged; visitor exits need the parking manager (or
    admin) role while employee exits do not; a successful exit stores
    exit_time, deactivates the allocation and appends a history row whose
    duration_minutes is the toward-zero truncation of
    (exit - entry) / 60 s — which equals the floor exactly when the exit
    is not before the entry, an earlier explicit timestamp being accepted
    with a truncated negative duration. -/
theorem claim_C5_amended :
    (∀ db aid ts now a,
      ParkingService.get_allocation_by_id db aid = some a →
      a.entry_time.isSome = true →
      ParkingService.record_entry db aid ts now =
        (db, none, some .entryAlreadyRecorded))
    ∧ (∀ db aid (u : User) ts now a,
      ParkingService.get_allocation_by_id db aid = some a →
      (a.parking_type = .employee ∨ ParkingService.can_manage_parking u = true) →
      a.entry_time = none →
      ParkingService.record_exit db aid u ts now =
        (db, none, some .noEntryRecorded))
    ∧ (∀ db aid (u : User) ts now a entry x,
      ParkingService.get_allocation_by_id db aid = some a →
      (a.parking_type = .employee ∨ ParkingService.can_manage_parking u = true) →
      a.entry_time = some entry → a.exit_time = some x →
      ParkingService.record_exit db aid u ts now =
        (db, none, some .exitAlreadyRecorded))
    ∧ (∀ db aid (u : User) ts now a,
      ParkingService.get_allocation_by_id db aid = some a →
      a.parking_type = .visitor →
      ParkingService.can_manage_parking u = false →
      ParkingService.record_exit db aid u ts now =
        (db, none, some .visitorExitForbidden))
    ∧ (∀ db aid (u : User) ts now a entry,
      ParkingService.get_allocation_by_id db aid = some a →
      (a.parking_type = .employee ∨ ParkingService.can_manage_parking u = true) →
      a.entry_time = some entry → a.exit_time = none →
      ParkingService.record_exit db aid u ts now =
        ({ db with
            allocations := db.allocations.map (fun x =>
              if x.id == aid then
                { a with exit_time := some (ts.getD now), is_active := false }
              else x),
            parking_history := db.parking_history ++
              [{ allocation_id := a.id, floor_plan_id := a.floor_plan_id,
                 slot_label := a.slot_label, parking_type := a.parking_type,
                 user_id := a.user_id, visitor_name := a.visitor_name,
                 vehicle_number := a.vehicle_number, entry_time := entry,
                 exit_time := ts.getD now,
                 duration_minutes :=
                   toString (Int.tdiv (ts.getD now - entry) 60) }] },
         some { a with exit_time := some (ts.getD now), is_active := false },
         none))
    ∧ (∀ entry ex : Int, entry ≤ ex →
        Int.tdiv (ex - entry) 60 = Int.fdiv (ex - entry) 60) := by
  refine ⟨?_, ?_, ?_, ?_, ?_, ?_⟩
  · intro db aid ts now a hfind hentry
    simp only [ParkingService.record_entry, hfind, hentry, if_true]
  · intro db aid u ts now a hfind hperm hentry
    simp only [ParkingService.record_exit, hfind, visitorGuardFalse a u hperm,
      Bool.false_eq_true, if_false, hentry]
  · intro db aid u ts now a entry x hfind hperm hentry hexit
    simp only [ParkingService.record_exit, hfind, visitorGuardFalse a u hperm,
      Bool.false_eq_true, if_false, hentry, hexit, Option.isSome_some, if_true]
  · intro db aid u ts now a hfind hvis hperm
    simp only [ParkingService.record_exit, hfind, hvis, hperm]
    simp
  · intro db aid u ts now a entry hfind hperm hentry hexit
    exact record_exit_success db aid u ts now a entry hfind hperm hentry hexit
  · intro entry ex h
    rw [Int.tdiv_eq_ediv (by omega) (by omega),
      Int.fdiv_eq_ediv _ (by omega)]

/-- Witness for the amended C5 at concrete stores. -/
theorem claim_C5_amended_witness :
    ParkingService.record_entry entryDB 1 none 7 =
      (entryDB, none, some .entryAlreadyRecorded)
    ∧ ParkingService.record_exit noEntryDB 1 ownerUser none 7 =
      (noEntryDB, none, some .noEntryRecorded)
    ∧ ParkingService.record_exit exitedDB 1 ownerUser none 7 =
      (exitedDB, none, some .exitAlreadyRecorded)
    ∧ (ParkingService.record_exit entryDB 1 ownerUser (some 400) 0).2.2 = none
    ∧ Int.tdiv (400 - 100) 60 = Int.fdiv (400 - 100) 60 := by
  refine ⟨?_, ?_, ?_, ?_, ?_⟩
  · exact claim_C5_amended.1 entryDB 1 none 7 entryAlloc (by decide) (by decide)
  · exact claim_C5_amended.2.1 noEntryDB 1 ownerUser none 7
      { entryAlloc with entry_time := none } (by decide)
      (Or.inl (by decide)) (by decide)
  · exact claim_C5_amended.2.2.1 exitedDB 1 ownerUser none 7
      { entryAlloc with exit_time := some 200, is_active := false } 100 200
      (by decide) (Or.inl (by decide)) (by decide) (by decide)
  · rw [claim_C5_amended.2.2.2.2.1 entryDB 1 ownerUser (some 400) 0 entryAlloc
      100 (by decide) (Or.inl (by decide)) (by decide) (by decide)]
  · exact claim_C5_amended.2.2.2.2.2 100 400 (by decide)

/-! ## Claim C2: one active parking allocation per employee -/

/-- Claim C2: an employee already holding an active allocation cannot get
    a second one — with a valid slot the request fails with a conflict
    (occupied slot or duplicate active allocation; exactly the duplicate
    conflict when the slot is free) and nothing is created; after a
    successful record_exit on the held allocation the employee has no
    active allocation left, and a fresh request for a valid free slot
    succeeds and appends a new active allocation for that employee. -/
theorem claim_C2_one_active_allocation :
    (∀ db (ad : ParkingService.ParkingAllocationCreate) (createdBy : User)
        uid newId act,
      ad.parking_type = .employee → ad.user_id = some uid →
      ParkingService.validate_parking_slot db ad.floor_plan_id ad.cell_row
        ad.cell_column = .ok none →
      (db.allocations.filter (fun a =>
        a.floor_plan_id == ad.floor_plan_id && a.slot_label == ad.slot_label &&
        a.is_active && a.exit_time == none)).length ≤ 1 →
      db.allocations.filter (fun a =>
        a.user_id == some uid && a.is_active && a.exit_time == none) = [act] →
      ∃ e, ParkingService.create_allocation db ad createdBy newId =
          .ok (db, none, some e) ∧
        (e = .slotOccupied ∨ e = .userAlreadyAllocated))
    ∧ (∀ db (ad : ParkingService.ParkingAllocationCreate) (createdBy : User)
        uid newId act,
      ad.parking_type = .employee → ad.user_id = some uid →
      ParkingService.validate_parking_slot db ad.floor_plan_id ad.cell_row
        ad.cell_column = .ok none →
      db.allocations.filter (fun a =>
        a.floor_plan_id == ad.floor_plan_id && a.slot_label == ad.slot_label &&
        a.is_active && a.exit_time == none) = [] →
      db.allocations.filter (fun a =>
        a.user_id == some uid && a.is_active && a.exit_time == none) = [act] →
      ParkingService.create_allocation db ad createdBy newId =
        .ok (db, none, some .userAlreadyAllocated))
    ∧ (∀ db aid (u : User) ts now a uid entry,
      ParkingService.get_allocation_by_id db aid = some a →
      a.user_id = some uid →
      (a.parking_type = .employee ∨ ParkingService.can_manage_parking u = true) →
      a.entry_time = some entry → a.exit_time = none →
      db.allocations.filter (fun x =>
        x.user_id == some uid && x.is_active && x.exit_time == none) = [a] →
      ((ParkingService.record_exit db aid u ts now).1.allocations.filter
        (fun x => x.user_id == some uid && x.is_active && x.exit_time == none))
        = [])
    ∧ (∀ db (ad : ParkingService.ParkingAllocationCreate) (createdBy : User)
        uid newId,
      ad.parking_type = .employee → ad.user_id = some uid →
      ParkingService.validate_parking_slot db ad.floor_plan_id ad.cell_row
        ad.cell_column = .ok none →
      db.allocations.filter (fun a =>
        a.floor_plan_id == ad.floor_plan_id && a.slot_label == ad.slot_label &&
        a.is_active && a.exit_time == none) = [] →
      db.allocations.filter (fun a =>
        a.user_id == some uid && a.is_active && a.exit_time == none) = [] →
      ∃ alloc, ParkingService.create_allocation db ad createdBy newId =
          .ok ({ db with allocations := db.allocations ++ [alloc] },
               some alloc, none)
        ∧ alloc.user_id = some uid ∧ alloc.is_active = true
        ∧ alloc.exit_time = none ∧ alloc.entry_time = none) := by
  refine ⟨?_, ?_, ?_, ?_⟩
  · intro db ad createdBy uid newId act hemp huid hvalid hslot huser
    simp only [ParkingService.create_allocation, hvalid,
      ParkingService.check_slot_availability, ParkingService.check_user_active_parking]
    rcases hf : db.allocations.filter (fun a =>
        a.floor_plan_id == ad.floor_plan_id && a.slot_label == ad.slot_label &&
        a.is_active && a.exit_time == none) with _ | ⟨x, _ | ⟨y, t⟩⟩
    · simp only [hf, huser, hemp, huid, scalarOneOrNone, Except.map,
        Option.isNone_none, Bool.not_true, Bool.false_eq_true, if_false,
        Option.isSome_some, if_true]
      exact ⟨.userAlreadyAllocated, rfl, Or.inr rfl⟩
    · simp only [hf, scalarOneOrNone, Except.map, Option.isNone_some,
        Bool.not_false, if_true]
      exact ⟨.slotOccupied, rfl, Or.inl rfl⟩
    · rw [hf] at hslot
      simp at hslot
  · intro db ad createdBy uid newId act hemp huid hvalid hslot huser
    simp only [ParkingService.create_allocation, hvalid,
      ParkingService.check_slot_availability, ParkingService.check_user_active_parking,
      hslot, scalarOneOrNone, Except.map, Option.isNone_none, Bool.not_true,
      Bool.false_eq_true, if_false, hemp, huid, huser, Option.isSome_some,
      if_true]
  · intro db aid u ts now a uid entry hfind huid hperm hentry hexit huniq
    rw [record_exit_success db aid u ts now a entry hfind hperm hentry hexit]
    refine List.filter_eq_nil_iff.mpr ?_
    intro x hx
    rcases List.mem_map.mp hx with ⟨y, hy, rfl⟩
    by_cases hid : (y.id == aid) = true
    · simp [hid]
    · simp only [hid, Bool.false_eq_true, if_false]
      intro hp
      have hmem : y ∈ db.allocations.filter (fun x =>
          x.user_id == some uid && x.is_active && x.exit_time == none) :=
        List.mem_filter.mpr ⟨hy, hp⟩
      rw [huniq] at hmem
      have hya : y = a := by simpa using hmem
      subst hya
      exact absurd (List.find?_some hfind) (by simp [hid])
  · intro db ad createdBy uid newId hemp huid hvalid hslot huser
    simp only [ParkingService.create_allocation, hvalid,
      ParkingService.check_slot_availability, ParkingService.check_user_active_parking,
      hslot, huser, scalarOneOrNone, Except.map, Option.isNone_none,
      Bool.not_true, Bool.false_eq_true, if_false, hemp, huid,
      Option.isSome_none]
    exact ⟨_, rfl, rfl, rfl, rfl, rfl⟩

/-- A 1 by 2 parking grid with labelled slots P1 and P2, and user 10
    holding the active allocation on P1. -/
def parkDB : DB :=
  { plans := [⟨1, "P", .parking, 1, 2, 1, true, 1⟩],
    versions := [⟨1, 1, [[⟨some "parking_slot", some "P1", none, none⟩,
                          ⟨some "parking_slot", some "P2", none, none⟩]],
                  true, 1, none⟩],
    desk_bookings := [], caf_bookings := [],
    allocations := [entryAlloc], parking_history := [] }

/-- A second employee-parking request by user 10, for the free slot P2. -/
def adP2 : ParkingService.ParkingAllocationCreate :=
  { floor_plan_id := 1, slot_label := "P2", cell_row := "0",
    cell_column := "1", parking_type := .employee, user_id := some 10,
    visitor_name := none, visitor_phone := none, visitor_company := none,
    vehicle_number := none, notes := none }

/-- A fresh employee-parking request by user 10 for slot P1. -/
def adP1 : ParkingService.ParkingAllocationCreate :=
  { adP2 with slot_label := "P1", cell_column := "0" }

/-- Witness for C2: with the P1 allocation held, booking P2 is refused as
    a duplicate-active conflict; after recording the exit the user has no
    active allocation and a fresh request succeeds. -/
theorem claim_C2_one_active_allocation_witness :
    ParkingService.create_allocation parkDB adP2 ownerUser 2 =
      .ok (parkDB, none, some .userAlreadyAllocated)
    ∧ ((ParkingService.record_exit parkDB 1 ownerUser (some 200) 0).1.allocations.filter
        (fun x => x.user_id == some 10 && x.is_active && x.exit_time == none)) = []
    ∧ ∃ alloc, ParkingService.create_allocation
          ((ParkingService.record_exit parkDB 1 ownerUser (some 200) 0).1)
          adP1 ownerUser 2 =
        .ok ({ (ParkingService.record_exit parkDB 1 ownerUser (some 200) 0).1 with
                allocations :=
                  (ParkingService.record_exit parkDB 1 ownerUser
                    (some 200) 0).1.allocations ++ [alloc] },
             some alloc, none)
      ∧ alloc.user_id = some 10 ∧ alloc.is_active = true
      ∧ alloc.exit_time = none ∧ alloc.entry_time = none :=
  ⟨claim_C2_one_active_allocation.2.1 parkDB adP2 ownerUser 10 2 entryAlloc
     rfl rfl (by decide) (by decide) (by decide),
   claim_C2_one_active_allocation.2.2.1 parkDB 1 ownerUser (some 200) 0
     entryAlloc 10 100 (by decide) (by decide) (Or.inl (by decide))
     (by decide) (by decide) (by decide),
   claim_C2_one_active_allocation.2.2.2
     ((ParkingService.record_exit parkDB 1 ownerUser (some 200) 0).1)
     adP1 ownerUser 10 2 rfl rfl (by decide) (by decide) (by decide)⟩

/-! ## Claim C4: grid validation -/

/-- A cell passes validation for a given allowed set: its cell_type is
    present, non-empty, and a member of the set. -/
def cellOk (valid : List String) (cell : Cell) : Bool :=
  match cell.cell_type with
  | none => false
  | some ct => !(ct == "") && valid.contains ct

/-- firstBadCell finds nothing exactly when every cell of the row passes. -/
theorem firstBadCell_none_iff (valid : List String) (r : Nat) :
    ∀ (row : List Cell) (c : Nat),
      firstBadCell valid r c row = none ↔
        ∀ cell ∈ row, cellOk valid cell = true := by
  intro row
  induction row with
  | nil => intro c; simp [firstBadCell]
  | cons cell rest ih =>
    intro c
    cases hct : cell.cell_type with
    | none => simp [firstBadCell, cellOk, hct]
    | some ct =>
      simp only [firstBadCell, hct]
      by_cases hre : ct = ""
      · subst hre
        simp [cellOk, hct]
      · rw [if_neg hre]
        by_cases hv : valid.contains ct = true
        · have hv' : ct ∈ valid := by simpa using hv
          rw [if_pos hv, ih (c + 1)]
          simp [List.forall_mem_cons, cellOk, hct, hre, hv']
        · have hv' : ct ∉ valid := by simpa using hv
          rw [if_neg hv]
          simp [List.forall_mem_cons, cellOk, hct, hre, hv']

/-- scanRows finds nothing exactly when every row has the declared length
    and every cell passes. -/
theorem scanRows_none_iff (valid : List String) (columns : Nat) :
    ∀ (g : List (List Cell)) (r : Nat),
      scanRows valid columns r g = none ↔
        ∀ row ∈ g, row.length = columns ∧
          ∀ cell ∈ row, cellOk valid cell = true := by
  intro g
  induction g with
  | nil => intro r; simp [scanRows]
  | cons row rest ih =>
    intro r
    simp only [scanRows]
    by_cases hlen : row.length = columns
    · rw [if_neg (not_not_intro hlen)]
      rcases hfb : firstBadCell valid r 0 row with _ | e
      · rw [ih (r + 1)]
        have hrow := (firstBadCell_none_iff valid r row 0).mp hfb
        constructor
        · intro h
          intro r2 hr2
          rcases List.mem_cons.mp hr2 with rfl | hr2'
          · exact ⟨hlen, hrow⟩
          · exact h r2 hr2'
        · intro h r2 hr2
          exact h r2 (by simp [hr2])
      · constructor
        · intro h
          cases h
        · intro h
          have : firstBadCell valid r 0 row = none :=
            (firstBadCell_none_iff valid r row 0).mpr (h row (by simp)).2
          rw [hfb] at this
          cases this
    · rw [if_pos hlen]
      constructor
      · intro h
        cases h
      · intro h
        exact absurd (h row (by simp)).1 hlen

/-- firstBadCell reports the leftmost failing cell of a row, with its
    running column index. -/
theorem firstBadCell_first (valid : List String) (r : Nat) :
    ∀ (row : List Cell) (c0 j : Nat) (cell : Cell) (ct : String),
      row.get? j = some cell → cell.cell_type = some ct → ct ≠ "" →
      valid.contains ct = false →
      (∀ j' cell', j' < j → row.get? j' = some cell' →
        cellOk valid cell' = true) →
      firstBadCell valid r c0 row = some (.invalidCellType ct r (c0 + j)) := by
  intro row
  induction row with
  | nil =>
    intro c0 j cell ct hget
    cases hget
  | cons hd rest ih =>
    intro c0 j cell ct hget hct hne hcontains hbefore
    cases j with
    | zero =>
      have hhd : hd = cell := by simpa using hget
      subst hhd
      simp only [firstBadCell, hct]
      rw [if_neg hne, if_neg (by rw [hcontains]; simp)]
      simp
    | succ j' =>
      have h0 := hbefore 0 hd (Nat.succ_pos j') rfl
      cases hct0 : hd.cell_type with
      | none => simp [cellOk, hct0] at h0
      | some ct0 =>
        simp only [cellOk, hct0, Bool.and_eq_true, Bool.not_eq_true',
          beq_eq_false_iff_ne, ne_eq] at h0
        simp only [firstBadCell, hct0]
        rw [if_neg h0.1, if_pos h0.2]
        have harith : c0 + 1 + j' = c0 + (j' + 1) := by omega
        rw [← harith]
        exact ih (c0 + 1) j' cell ct (by simpa using hget) hct hne hcontains
          (fun j'' cell' h1 h2 =>
            hbefore (j'' + 1) cell' (Nat.succ_lt_succ h1) (by simpa using h2))

/-- scanRows reports the row-major first failing cell when every row has
    the declared length and every earlier position passes. -/
theorem scanRows_first (valid : List String) (columns : Nat) :
    ∀ (g : List (List Cell)) (r0 i j : Nat) (rowi : List Cell)
      (cell : Cell) (ct : String),
      (∀ row ∈ g, row.length = columns) →
      g.get? i = some rowi → rowi.get? j = some cell →
      cell.cell_type = some ct → ct ≠ "" → valid.contains ct = false →
      (∀ i' j' row' cell', g.get? i' = some row' → row'.get? j' = some cell' →
        (i' < i ∨ (i' = i ∧ j' < j)) → cellOk valid cell' = true) →
      scanRows valid columns r0 g = some (.invalidCellType ct (r0 + i) j) := by
  intro g
  induction g with
  | nil =>
    intro r0 i j rowi cell ct hall hget
    cases hget
  | cons row rest ih =>
    intro r0 i j rowi cell ct hall hget hgetc hct hne hcontains hbefore
    have hlen : row.length = columns := hall row (by simp)
    simp only [scanRows]
    rw [if_neg (not_not_intro hlen)]
    cases i with
    | zero =>
      have hrow : row = rowi := by simpa using hget
      subst hrow
      have hfb := firstBadCell_first valid r0 row 0 j cell ct hgetc hct hne
        hcontains
        (fun j' cell' h1 h2 =>
          hbefore 0 j' row cell' rfl h2 (Or.inr ⟨rfl, h1⟩))
      rw [hfb]
      simp
    | succ i' =>
      have hrowOk : firstBadCell valid r0 0 row = none := by
        refine (firstBadCell_none_iff valid r0 row 0).mpr ?_
        intro c hc
        rcases List.mem_iff_get?.mp hc with ⟨j', hj'⟩
        exact hbefore 0 j' row c rfl hj' (Or.inl (Nat.succ_pos i'))
      rw [hrowOk]
      have harith : r0 + 1 + i' = r0 + (i' + 1) := by omega
      rw [← harith]
      exact ih (r0 + 1) i' j rowi cell ct
        (fun rw hrw => hall rw (by simp [hrw]))
        (by simpa using hget) hgetc hct hne hcontains
        (fun i'' j' row' cell' h1 h2 h3 =>
          hbefore (i'' + 1) j' row' cell' (by simpa using h1) h2
            (by omega))

/-- Claim C4: validate_grid_data accepts exactly the grids with the
    declared shape whose cells all carry a non-empty allowed cell_type; a
    wrong row count is reported as such, and on a well-shaped grid whose
    cell types are all present and non-empty, the reported invalid cell
    is the row-major first one whose type is outside the allowed set, so
    of two violating cells only the earlier one is reported. -/
theorem claim_C4_validate_grid :
    (∀ (grid : List (List Cell)) (rows columns : Nat) (pt : FloorPlanType),
      FloorPlanService.validate_grid_data grid rows columns pt = none ↔
        (grid.length = rows ∧ ∀ row ∈ grid, row.length = columns ∧
          ∀ cell ∈ row, cellOk (VALID_CELL_TYPES pt) cell = true))
    ∧ (∀ (grid : List (List Cell)) (rows columns : Nat) (pt : FloorPlanType),
      grid.length ≠ rows →
      FloorPlanService.validate_grid_data grid rows columns pt =
        some (.wrongRowCount rows))
    ∧ (∀ (grid : List (List Cell)) (rows columns : Nat) (pt : FloorPlanType)
        (i j : Nat) (rowi : List Cell) (cell : Cell) (ct : String),
      grid.length = rows →
      (∀ row ∈ grid, row.length = columns) →
      grid.get? i = some rowi → rowi.get? j = some cell →
      cell.cell_type = some ct → ct ≠ "" →
      (VALID_CELL_TYPES pt).contains ct = false →
      (∀ i' j' row' cell',
        grid.get? i' = some row' → row'.get? j' = some cell' →
        (i' < i ∨ (i' = i ∧ j' < j)) →
        cellOk (VALID_CELL_TYPES pt) cell' = true) →
      FloorPlanService.validate_grid_data grid rows columns pt =
        some (.invalidCellType ct i j)) := by
  refine ⟨?_, ?_, ?_⟩
  · intro grid rows columns pt
    simp only [FloorPlanService.validate_grid_data]
    by_cases hlen : grid.length = rows
    · rw [if_neg (not_not_intro hlen)]
      rw [scanRows_none_iff]
      simp [hlen]
    · rw [if_pos hlen]
      constructor
      · intro h
        cases h
      · intro h
        exact absurd h.1 hlen
  · intro grid rows columns pt hlen
    simp only [FloorPlanService.validate_grid_data]
    rw [if_pos hlen]
  · intro grid rows columns pt i j rowi cell ct hrows hcols hgr hgc hct hne
      hcontains hbefore
    simp only [FloorPlanService.validate_grid_data]
    rw [if_neg (not_not_intro hrows)]
    have := scanRows_first (VALID_CELL_TYPES pt) columns grid 0 i j rowi cell
      ct hcols hgr hgc hct hne hcontains hbefore
    simpa using this

/-- A parking-slot cell, invalid on a desk-area plan. -/
def pslotBad : Cell := ⟨some "parking_slot", none, none, none⟩

/-- A cafeteria-table cell, invalid on a desk-area plan. -/
def ctableBad : Cell := ⟨some "cafeteria_table", none, none, none⟩

/-- A row with a desk and then two cells invalid on a desk-area plan. -/
def badRow : List Cell := [deskCell, pslotBad, ctableBad]

/-- A one-row grid with two violations; the earlier one is at (0, 1). -/
def twoViolationGrid : List (List Cell) := [badRow]

/-- Witness for C4: an all-desk 2 by 2 grid validates, a wrong row count
    is reported, and on the two-violation grid only the earlier
    violation (0, 1) is reported. -/
theorem claim_C4_validate_grid_witness :
    FloorPlanService.validate_grid_data
      [[deskCell, deskCell], [deskCell, deskCell]] 2 2 .deskArea = none
    ∧ FloorPlanService.validate_grid_data
      [[deskCell, deskCell], [deskCell, deskCell]] 3 2 .deskArea =
      some (.wrongRowCount 3)
    ∧ FloorPlanService.validate_grid_data twoViolationGrid 1 3 .deskArea =
      some (.invalidCellType "parking_slot" 0 1) := by
  refine ⟨?_, ?_, ?_⟩
  · exact (claim_C4_validate_grid.1 _ 2 2 .deskArea).mpr (by decide)
  · exact claim_C4_validate_grid.2.1 _ 3 2 .deskArea (by decide)
  · refine claim_C4_validate_grid.2.2 twoViolationGrid 1 3 .deskArea 0 1
      badRow pslotBad "parking_slot" (by decide) (by decide) (by decide)
      (by decide) (by decide) (by decide) (by decide) ?_
    intro i' j' row' cell' h1 h2 h3
    rcases h3 with h | ⟨hi, hj⟩
    · exact absurd h (Nat.not_lt_zero i')
    · subst hi
      have hj0 : j' = 0 := by omega
      subst hj0
      simp only [twoViolationGrid, List.get?] at h1
      cases h1
      simp only [badRow, List.get?] at h2
      cases h2
      decide

/-! ## Claim C3: versioning -/

/-- The version numbers stored for one floor plan. -/
def versionNumbersOf (db : DB) (fpId : Nat) : List Nat :=
  (db.versions.filter (fun v => v.floor_plan_id == fpId)).map (fun v => v.version)

/-- Run a sequence of create_version calls, requiring every one of them to
    succeed. -/
def applyVersions (fpId : Nat) (actor : User) :
    DB → List (List (List Cell)) → Option DB
  | db, [] => some db
  | db, g :: gs =>
    match FloorPlanService.create_version db fpId g none actor with
    | (db', some _, none) => applyVersions fpId actor db' gs
    | _ => none

/-- Updating the matched plan in place is visible through find?. -/
theorem find?_update_plan (fpId : Nat) (n : Nat) :
    ∀ (plans : List FloorPlan) (plan : FloorPlan),
      plans.find? (fun p => p.id == fpId) = some plan →
      (plans.map (fun p =>
        if p.id == fpId then { p with current_version := n } else p)).find?
          (fun p => p.id == fpId) = some { plan with current_version := n } := by
  intro plans
  induction plans with
  | nil => intro plan h; cases h
  | cons p ps ih =>
    intro plan h
    by_cases hp : (p.id == fpId) = true
    · simp only [List.find?_cons, hp] at h
      cases h
      simp only [List.map_cons, if_pos hp, List.find?_cons]
      have hp2 : (({ p with current_version := n } : FloorPlan).id == fpId)
          = true := hp
      rw [hp2]
    · have hp' : (p.id == fpId) = false := by simpa using hp
      simp only [List.find?_cons, hp'] at h
      simp only [List.map_cons, List.find?_cons, hp', Bool.false_eq_true,
        if_false]
      exact ih plan h

/-- What a successful create_version did: the new version row carries
    current_version + 1, is appended to the version log, and the plan's
    counter is bumped in the same operation. -/
theorem create_version_success (db : DB) (fpId : Nat)
    (grid : List (List Cell)) (notes : Option String) (actor : User)
    (db' : DB) (v : FloorPlanVersion) (plan : FloorPlan)
    (hfind : FloorPlanService.get_floor_plan_by_id db fpId = some plan)
    (hc : FloorPlanService.create_version db fpId grid notes actor =
      (db', some v, none)) :
    v.version = plan.current_version + 1
    ∧ v.floor_plan_id = fpId
    ∧ db'.versions = db.versions ++ [v]
    ∧ db'.plans = db.plans.map (fun p =>
        if p.id == fpId then { p with current_version := plan.current_version + 1 }
        else p) := by
  simp only [FloorPlanService.create_version, hfind] at hc
  by_cases hcm : FloorPlanService.can_manage_plan_type actor plan.plan_type = true
  · rcases hval : FloorPlanService.validate_grid_data grid plan.rows
        plan.columns plan.plan_type with _ | e
    · simp only [hval, hcm, Bool.not_true, Bool.false_eq_true, if_false] at hc
      simp only [Prod.mk.injEq, Option.some.injEq] at hc
      obtain ⟨hdb, hv, -⟩ := hc
      subst hdb
      subst hv
      exact ⟨rfl, rfl, rfl, rfl⟩
    · simp [hval, hcm] at hc
  · simp [hcm] at hc

/-- Chained successful version creates starting from a consistent state
    leave the version log at exactly 1..(current + number of creates). -/
theorem applyVersions_inv (fpId : Nat) (actor : User) :
    ∀ (gs : List (List (List Cell))) (db dbN : DB) (plan : FloorPlan),
      FloorPlanService.get_floor_plan_by_id db fpId = some plan →
      versionNumbersOf db fpId = List.range' 1 plan.current_version →
      applyVersions fpId actor db gs = some dbN →
      ∃ planN, FloorPlanService.get_floor_plan_by_id dbN fpId = some planN
        ∧ planN.current_version = plan.current_version + gs.length
        ∧ versionNumbersOf dbN fpId =
            List.range' 1 (plan.current_version + gs.length) := by
  intro gs
  induction gs with
  | nil =>
    intro db dbN plan hfind hnums happ
    have hdb : db = dbN := by simpa [applyVersions] using happ
    subst hdb
    exact ⟨plan, hfind, by simp, by simpa using hnums⟩
  | cons g gs ih =>
    intro db dbN plan hfind hnums happ
    simp only [applyVersions] at happ
    rcases hc : FloorPlanService.create_version db fpId g none actor
      with ⟨db', ov, oe⟩
    rw [hc] at happ
    rcases ov with _ | v
    · rcases oe with _ | e <;> cases happ
    · rcases oe with _ | e
      · obtain ⟨hver, hfp, hvers, hplans⟩ :=
          create_version_success db fpId g none actor db' v plan hfind hc
        have hfind' : FloorPlanService.get_floor_plan_by_id db' fpId =
            some { plan with current_version := plan.current_version + 1 } := by
          unfold FloorPlanService.get_floor_plan_by_id
          rw [hplans]
          exact find?_update_plan fpId (plan.current_version + 1) db.plans plan
            hfind
        have hnums' : versionNumbersOf db' fpId =
            List.range' 1 (plan.current_version + 1) := by
          unfold versionNumbersOf
          rw [hvers, List.filter_append]
          have hvf : (([v] : List FloorPlanVersion).filter
              (fun x => x.floor_plan_id == fpId)) = [v] := by
            simp [hfp]
          rw [hvf, List.map_append]
          unfold versionNumbersOf at hnums
          rw [hnums]
          simp only [List.map_cons, List.map_nil]
          rw [hver]
          have hrc : List.range' 1 (plan.current_version + 1) =
              List.range' 1 plan.current_version ++
                [plan.current_version + 1] := by
            have := @List.range'_concat 1 1 plan.current_version
            simpa [Nat.add_comm] using this
          rw [hrc]
        obtain ⟨planN, h1, h2, h3⟩ := ih db' dbN
          { plan with current_version := plan.current_version + 1 }
          hfind' hnums' happ
        refine ⟨planN, h1, ?_, ?_⟩
        · simpa [Nat.add_assoc, Nat.add_comm, Nat.add_left_comm] using h2
        · have harith : plan.current_version + 1 + gs.length =
              plan.current_version + (gs.length + 1) := by omega
          rw [harith] at h3
          simpa using h3
      · cases happ

/-- The foldl of the latest-version accumulator yields an element with the
    maximal version number. -/
theorem latest_foldl_acc :
    ∀ (vs : List FloorPlanVersion) (a : FloorPlanVersion),
      ∃ w, vs.foldl (fun acc v =>
          match acc with
          | none => some v
          | some u => if u.version < v.version then some v else some u)
        (some a) = some w
      ∧ (w ∈ vs ∨ w = a) ∧ a.version ≤ w.version
      ∧ ∀ u ∈ vs, u.version ≤ w.version := by
  intro vs
  induction vs with
  | nil =>
    intro a
    exact ⟨a, rfl, Or.inr rfl, Nat.le_refl _, by simp⟩
  | cons v rest ih =>
    intro a
    rw [List.foldl_cons]
    by_cases h : a.version < v.version
    · obtain ⟨w, hw, hmem, hle, hall⟩ := ih v
      refine ⟨w, ?_, ?_, ?_, ?_⟩
      · simpa [h] using hw
      · rcases hmem with hm | hm
        · exact Or.inl (by simp [hm])
        · exact Or.inl (by simp [hm])
      · omega
      · intro u hu
        rcases List.mem_cons.mp hu with rfl | hu'
        · exact hle
        · exact hall u hu'
    · obtain ⟨w, hw, hmem, hle, hall⟩ := ih a
      refine ⟨w, ?_, ?_, hle, ?_⟩
      · simpa [h] using hw
      · rcases hmem with hm | hm
        · exact Or.inl (by simp [hm])
        · exact Or.inr hm
      · intro u hu
        rcases List.mem_cons.mp hu with rfl | hu'
        · omega
        · exact hall u hu'

/-- When the version numbers of a plan are exactly 1..n with n at least 1,
    get_latest_version returns a version row numbered n. -/
theorem latestVersion_of_range (db : DB) (fpId n : Nat)
    (h : versionNumbersOf db fpId = List.range' 1 n) (hn : 1 ≤ n) :
    ∃ w, FloorPlanService.get_latest_version db fpId = some w
      ∧ w.version = n := by
  unfold FloorPlanService.get_latest_version latestVersion
  rcases hvs : db.versions.filter (fun v => v.floor_plan_id == fpId)
    with _ | ⟨v, rest⟩
  · unfold versionNumbersOf at h
    rw [hvs] at h
    have : (List.range' 1 n).length = 0 := by rw [← h]; simp
    simp at this
    omega
  · rw [hvs, List.foldl_cons]
    obtain ⟨w, hw, hmem, hle, hall⟩ := latest_foldl_acc rest v
    refine ⟨w, by simpa using hw, ?_⟩
    have hwmem : w ∈ db.versions.filter (fun v => v.floor_plan_id == fpId) := by
      rw [hvs]
      rcases hmem with hm | hm
      · exact List.mem_cons_of_mem v hm
      · simp [hm]
    have hwv : w.version ∈ List.range' 1 n := by
      rw [← h]
      exact List.mem_map.mpr ⟨w, hwmem, rfl⟩
    have hwb := List.mem_range'_1.mp hwv
    have hnn : n ∈ List.range' 1 n := List.mem_range'_1.mpr (by omega)
    rw [← h] at hnn
    obtain ⟨u, hu, huv⟩ := List.mem_map.mp hnn
    rw [hvs] at hu
    have hun : u.version ≤ w.version := by
      rcases List.mem_cons.mp hu with rfl | hu'
      · exact hle
      · exact hall u hu'
    omega

/-- What a successful create_floor_plan did: the new plan starts at
    current_version 1 and an initial version row 1 is appended. -/
theorem create_floor_plan_success (db : DB) (name : String)
    (pt : FloorPlanType) (rows columns : Nat) (grid : List (List Cell))
    (actor : User) (newPlanId : Nat) (db1 : DB) (plan : FloorPlan)
    (hc : FloorPlanService.create_floor_plan db name pt rows columns grid
      actor newPlanId = .ok (db1, some plan, none)) :
    plan = { id := newPlanId, name := name, plan_type := pt, rows := rows,
             columns := columns, current_version := 1, is_active := true,
             created_by_id := actor.id }
    ∧ db1.plans = db.plans ++ [plan]
    ∧ db1.versions = db.versions ++
        [{ floor_plan_id := newPlanId, version := 1, grid_data := grid,
           is_active := true, created_by_id := actor.id,
           change_notes := some "Initial version" }] := by
  simp only [FloorPlanService.create_floor_plan] at hc
  by_cases hcm : FloorPlanService.can_manage_plan_type actor pt = true
  · rcases hdup : scalarOneOrNone (db.plans.filter (fun p =>
        p.name == name && p.plan_type == pt)) with e | ex
    · rw [hdup] at hc
      simp [hcm] at hc
    · rw [hdup] at hc
      rcases ex with _ | x
      · rcases hval : FloorPlanService.validate_grid_data grid rows columns pt
          with _ | e
        · simp only [hval, hcm, Bool.not_true, Bool.false_eq_true, if_false,
            Option.isSome_none, Except.ok.injEq, Prod.mk.injEq,
            Option.some.injEq] at hc
          obtain ⟨hdb, hp, -⟩ := hc
          subst hp
          subst hdb
          exact ⟨rfl, rfl, rfl⟩
        · simp [hval, hcm] at hc
      · simp [hcm] at hc
  · simp [hcm] at hc

/-- Claim C3: a successful create_version assigns current_version + 1 and
    bumps the plan's counter in the same operation; starting from a
    freshly created floor plan (version 1), any chain of successful
    creates leaves version numbers exactly 1..N with no gaps and
    get_latest_version returns version N. -/
theorem claim_C3_versioning :
    (∀ db fpId grid notes (actor : User) db' v plan,
      FloorPlanService.get_floor_plan_by_id db fpId = some plan →
      FloorPlanService.create_version db fpId grid notes actor =
        (db', some v, none) →
      v.version = plan.current_version + 1
      ∧ FloorPlanService.get_floor_plan_by_id db' fpId =
          some { plan with current_version := plan.current_version + 1 })
    ∧ (∀ db0 name pt rows columns grid (actor : User) newPlanId db1 plan gs
        dbN,
      db0.plans.find? (fun p => p.id == newPlanId) = none →
      db0.versions.filter (fun v => v.floor_plan_id == newPlanId) = [] →
      FloorPlanService.create_floor_plan db0 name pt rows columns grid actor
        newPlanId = .ok (db1, some plan, none) →
      applyVersions newPlanId actor db1 gs = some dbN →
      versionNumbersOf dbN newPlanId = List.range' 1 (1 + gs.length)
      ∧ ∃ w, FloorPlanService.get_latest_version dbN newPlanId = some w
          ∧ w.version = 1 + gs.length) := by
  constructor
  · intro db fpId grid notes actor db' v plan hfind hc
    obtain ⟨hver, hfp, hvers, hplans⟩ :=
      create_version_success db fpId grid notes actor db' v plan hfind hc
    refine ⟨hver, ?_⟩
    unfold FloorPlanService.get_floor_plan_by_id
    rw [hplans]
    exact find?_update_plan fpId (plan.current_version + 1) db.plans plan hfind
  · intro db0 name pt rows columns grid actor newPlanId db1 plan gs dbN
      hfreshP hfreshV hcreate happ
    obtain ⟨hplan, hplans1, hvers1⟩ := create_floor_plan_success db0 name pt
      rows columns grid actor newPlanId db1 plan hcreate
    have hfind1 : FloorPlanService.get_floor_plan_by_id db1 newPlanId =
        some plan := by
      unfold FloorPlanService.get_floor_plan_by_id
      rw [hplans1, List.find?_append, hfreshP]
      subst hplan
      simp
    have hnums1 : versionNumbersOf db1 newPlanId = List.range' 1 1 := by
      unfold versionNumbersOf
      rw [hvers1, List.filter_append, hfreshV]
      simp [List.range']
    have hcv1 : plan.current_version = 1 := by rw [hplan]
    obtain ⟨planN, h1, h2, h3⟩ := applyVersions_inv newPlanId actor gs db1 dbN
      plan hfind1 (by rw [hcv1]; exact hnums1) happ
    rw [hcv1] at h3
    refine ⟨h3, ?_⟩
    exact latestVersion_of_range dbN newPlanId (1 + gs.length) h3 (by omega)

/-- Witness for C3: from an empty store, create a desk-area floor plan
    with a 1 by 1 grid and then two more versions; the log reads 1, 2, 3
    and the latest version is 3. -/
theorem claim_C3_versioning_witness :
    ∃ dbN, (applyVersions 1 ⟨1, .admin, none⟩
        ((FloorPlanService.create_floor_plan
          ⟨[], [], [], [], [], []⟩ "F" .deskArea 1 1 [[deskCell]]
          ⟨1, .admin, none⟩ 1).toOption.map (fun t => t.1) |>.getD
          ⟨[], [], [], [], [], []⟩)
        [[[deskCell]], [[deskCell]]] = some dbN)
      ∧ versionNumbersOf dbN 1 = List.range' 1 3
      ∧ ∃ w, FloorPlanService.get_latest_version dbN 1 = some w
          ∧ w.version = 3 := by
  have h := claim_C3_versioning.2 ⟨[], [], [], [], [], []⟩ "F" .deskArea 1 1
    [[deskCell]] ⟨1, .admin, none⟩ 1
    ((FloorPlanService.create_floor_plan ⟨[], [], [], [], [], []⟩ "F"
      .deskArea 1 1 [[deskCell]] ⟨1, .admin, none⟩ 1).toOption.map
      (fun t => t.1) |>.getD ⟨[], [], [], [], [], []⟩)
    { id := 1, name := "F", plan_type := .deskArea, rows := 1, columns := 1,
      current_version := 1, is_active := true, created_by_id := 1 }
    [[[deskCell]], [[deskCell]]]
    ((applyVersions 1 ⟨1, .admin, none⟩
        ((FloorPlanService.create_floor_plan ⟨[], [], [], [], [], []⟩ "F"
          .deskArea 1 1 [[deskCell]] ⟨1, .admin, none⟩ 1).toOption.map
          (fun t => t.1) |>.getD ⟨[], [], [], [], [], []⟩)
        [[[deskCell]], [[deskCell]]]).getD ⟨[], [], [], [], [], []⟩)
    (by decide) (by decide) (by decide) (by decide)
  exact ⟨_, by decide, h.1, h.2⟩

/-! ## Claim C9: deterministic row-major slot assignment -/

/-- Membership in the inner row scan: exactly the parking-slot cells with
    an unoccupied label, tagged with their running column index. -/
theorem slotScanRow_mem (occ : List String) (r : Nat) :
    ∀ (row : List Cell) (c0 : Nat) (s : SlotInfo),
      s ∈ slotScanRow occ r c0 row ↔
        ∃ j cell, row.get? j = some cell ∧
          (cell.cell_type == some "parking_slot") = true ∧
          occ.contains (slotLabelOf cell r (c0 + j)) = false ∧
          s = ⟨r, c0 + j, slotLabelOf cell r (c0 + j), cell.direction⟩ := by
  intro row
  induction row with
  | nil =>
    intro c0 s
    simp [slotScanRow]
  | cons cell rest ih =>
    intro c0 s
    by_cases ht : (cell.cell_type == some "parking_slot") = true
    · by_cases hocc : occ.contains (slotLabelOf cell r c0) = true
      · have hstep : slotScanRow occ r c0 (cell :: rest) =
            slotScanRow occ r (c0 + 1) rest := by
          rw [slotScanRow, if_pos ht, if_pos hocc]
        rw [hstep, ih (c0 + 1)]
        constructor
        · rintro ⟨j, cl, h1, h2, h3, h4⟩
          have harith : c0 + 1 + j = c0 + (j + 1) := by omega
          rw [harith] at h3 h4
          exact ⟨j + 1, cl, by simpa using h1, h2, h3, h4⟩
        · rintro ⟨j, cl, h1, h2, h3, h4⟩
          cases j with
          | zero =>
            have hcl : cell = cl := by simpa using h1
            cases hcl
            rw [Nat.add_zero] at h3
            rw [h3] at hocc
            exact absurd hocc (by simp)
          | succ j' =>
            have harith : c0 + (j' + 1) = c0 + 1 + j' := by omega
            rw [harith] at h3 h4
            exact ⟨j', cl, by simpa using h1, h2, h3, h4⟩
      · have hstep : slotScanRow occ r c0 (cell :: rest) =
            ⟨r, c0, slotLabelOf cell r c0, cell.direction⟩ ::
              slotScanRow occ r (c0 + 1) rest := by
          rw [slotScanRow, if_pos ht, if_neg hocc]
        rw [hstep]
        constructor
        · intro hs
          rcases List.mem_cons.mp hs with rfl | hs'
          · exact ⟨0, cell, rfl, ht, by simpa using hocc, by simp⟩
          · obtain ⟨j, cl, h1, h2, h3, h4⟩ := (ih (c0 + 1) s).mp hs'
            have harith : c0 + 1 + j = c0 + (j + 1) := by omega
            rw [harith] at h3 h4
            exact ⟨j + 1, cl, by simpa using h1, h2, h3, h4⟩
        · rintro ⟨j, cl, h1, h2, h3, h4⟩
          cases j with
          | zero =>
            have hcl : cell = cl := by simpa using h1
            cases hcl
            rw [Nat.add_zero] at h4
            rw [h4]
            exact List.mem_cons_self _ _
          | succ j' =>
            refine List.mem_cons_of_mem _ ((ih (c0 + 1) s).mpr ?_)
            have harith : c0 + (j' + 1) = c0 + 1 + j' := by omega
            rw [harith] at h3 h4
            exact ⟨j', cl, by simpa using h1, h2, h3, h4⟩
    · have hstep : slotScanRow occ r c0 (cell :: rest) =
          slotScanRow occ r (c0 + 1) rest := by
        rw [slotScanRow, if_neg ht]
      rw [hstep, ih (c0 + 1)]
      constructor
      · rintro ⟨j, cl, h1, h2, h3, h4⟩
        have harith : c0 + 1 + j = c0 + (j + 1) := by omega
        rw [harith] at h3 h4
        exact ⟨j + 1, cl, by simpa using h1, h2, h3, h4⟩
      · rintro ⟨j, cl, h1, h2, h3, h4⟩
        cases j with
        | zero =>
          have hcl : cell = cl := by simpa using h1
          cases hcl
          exact absurd h2 ht
        | succ j' =>
          have harith : c0 + (j' + 1) = c0 + 1 + j' := by omega
          rw [harith] at h3 h4
          exact ⟨j', cl, by simpa using h1, h2, h3, h4⟩

/-- Membership in the whole grid scan, with absolute row indexes. -/
theorem slotScan_mem (occ : List String) :
    ∀ (g : List (List Cell)) (r0 : Nat) (s : SlotInfo),
      s ∈ slotScan occ r0 g ↔
        ∃ i j row cell, g.get? i = some row ∧ row.get? j = some cell ∧
          (cell.cell_type == some "parking_slot") = true ∧
          occ.contains (slotLabelOf cell (r0 + i) j) = false ∧
          s = ⟨r0 + i, j, slotLabelOf cell (r0 + i) j, cell.direction⟩ := by
  intro g
  induction g with
  | nil =>
    intro r0 s
    simp [slotScan]
  | cons row rest ih =>
    intro r0 s
    rw [slotScan]
    constructor
    · intro hs
      rcases List.mem_append.mp hs with hs | hs
      · obtain ⟨j, cl, h1, h2, h3, h4⟩ := (slotScanRow_mem occ r0 row 0 s).mp hs
        rw [Nat.zero_add] at h3 h4
        exact ⟨0, j, row, cl, rfl, h1, h2, by simpa using h3, by simpa using h4⟩
      · obtain ⟨i, j, row', cl, h1, h2, h3, h4, h5⟩ := (ih (r0 + 1) s).mp hs
        have harith : r0 + 1 + i = r0 + (i + 1) := by omega
        rw [harith] at h4 h5
        exact ⟨i + 1, j, row', cl, by simpa using h1, h2, h3, h4, h5⟩
    · rintro ⟨i, j, row', cl, h1, h2, h3, h4, h5⟩
      cases i with
      | zero =>
        have hrr : row = row' := by simpa using h1
        cases hrr
        refine List.mem_append.mpr (Or.inl
          ((slotScanRow_mem occ r0 row 0 s).mpr ?_))
        exact ⟨j, cl, h2, h3, by simpa using h4, by simpa using h5⟩
      | succ i' =>
        refine List.mem_append.mpr (Or.inr ((ih (r0 + 1) s).mpr ?_))
        have harith : r0 + (i' + 1) = r0 + 1 + i' := by omega
        rw [harith] at h4 h5
        exact ⟨i', j, row', cl, by simpa using h1, h2, h3, h4, h5⟩

/-- A row none of whose cells qualifies scans to the empty list. -/
theorem slotScanRow_nil (occ : List String) (r : Nat) (row : List Cell)
    (c0 : Nat)
    (h : ∀ j cell, row.get? j = some cell →
      ¬((cell.cell_type == some "parking_slot") = true ∧
        occ.contains (slotLabelOf cell r (c0 + j)) = false)) :
    slotScanRow occ r c0 row = [] := by
  refine List.eq_nil_iff_forall_not_mem.mpr ?_
  intro s hs
  obtain ⟨j, cl, h1, h2, h3, -⟩ := (slotScanRow_mem occ r row c0 s).mp hs
  exact h j cl h1 ⟨h2, h3⟩

/-- The inner scan's first element is the leftmost qualifying cell. -/
theorem slotScanRow_head (occ : List String) (r : Nat) :
    ∀ (row : List Cell) (c0 j : Nat) (cell : Cell),
      row.get? j = some cell →
      (cell.cell_type == some "parking_slot") = true →
      occ.contains (slotLabelOf cell r (c0 + j)) = false →
      (∀ j' cell', j' < j → row.get? j' = some cell' →
        ¬((cell'.cell_type == some "parking_slot") = true ∧
          occ.contains (slotLabelOf cell' r (c0 + j')) = false)) →
      (slotScanRow occ r c0 row).head? =
        some ⟨r, c0 + j, slotLabelOf cell r (c0 + j), cell.direction⟩ := by
  intro row
  induction row with
  | nil =>
    intro c0 j cell h1
    cases h1
  | cons hd rest ih =>
    intro c0 j cell h1 h2 h3 hbefore
    cases j with
    | zero =>
      have hhd : hd = cell := by simpa using h1
      subst hhd
      rw [Nat.add_zero] at h3 ⊢
      rw [slotScanRow, if_pos h2, if_neg (by simpa using h3)]
      rfl
    | succ j' =>
      have hnq := hbefore 0 hd (Nat.succ_pos j') rfl
      rw [Nat.add_zero] at hnq
      have hstep : slotScanRow occ r c0 (hd :: rest) =
          slotScanRow occ r (c0 + 1) rest := by
        by_cases ht : (hd.cell_type == some "parking_slot") = true
        · have hocc : occ.contains (slotLabelOf hd r c0) = true := by
            by_contra hc
            exact hnq ⟨ht, by simpa using hc⟩
          rw [slotScanRow, if_pos ht, if_pos hocc]
        · rw [slotScanRow, if_neg ht]
      rw [hstep]
      have harith : c0 + (j' + 1) = c0 + 1 + j' := by omega
      rw [harith] at h3 ⊢
      exact ih (c0 + 1) j' cell (by simpa using h1) h2 h3
        (fun j'' cell' hj hg =>
          by
            have := hbefore (j'' + 1) cell' (Nat.succ_lt_succ hj)
              (by simpa using hg)
            have harith2 : c0 + (j'' + 1) = c0 + 1 + j'' := by omega
            rw [harith2] at this
            exact this)

/-- The grid scan's first element is the row-major first qualifying cell. -/
theorem slotScan_head (occ : List String) :
    ∀ (g : List (List Cell)) (r0 i j : Nat) (rowi : List Cell) (cell : Cell),
      g.get? i = some rowi → rowi.get? j = some cell →
      (cell.cell_type == some "parking_slot") = true →
      occ.contains (slotLabelOf cell (r0 + i) j) = false →
      (∀ i' j' row' cell', g.get? i' = some row' → row'.get? j' = some cell' →
        (i' < i ∨ (i' = i ∧ j' < j)) →
        ¬((cell'.cell_type == some "parking_slot") = true ∧
          occ.contains (slotLabelOf cell' (r0 + i') j') = false)) →
      (slotScan occ r0 g).head? =
        some ⟨r0 + i, j, slotLabelOf cell (r0 + i) j, cell.direction⟩ := by
  intro g
  induction g with
  | nil =>
    intro r0 i j rowi cell h1
    cases h1
  | cons row rest ih =>
    intro r0 i j rowi cell h1 h2 h3 h4 hbefore
    rw [slotScan]
    cases i with
    | zero =>
      have hrr : row = rowi := by simpa using h1
      subst hrr
      rw [Nat.add_zero] at h4 ⊢
      have hhead := slotScanRow_head occ r0 row 0 j cell h2 h3
        (by simpa using h4)
        (fun j' cell' hj hg =>
          by
            have := hbefore 0 j' row cell' rfl hg (Or.inr ⟨rfl, hj⟩)
            rw [Nat.add_zero] at this
            simpa using this)
      rw [Nat.zero_add] at hhead
      cases hrow : slotScanRow occ r0 0 row with
      | nil => rw [hrow] at hhead; cases hhead
      | cons a t =>
        rw [hrow] at hhead
        simpa using hhead
    | succ i' =>
      have hnil : slotScanRow occ r0 0 row = [] := by
        refine slotScanRow_nil occ r0 row 0 ?_
        intro j' cell' hg
        have := hbefore 0 j' row cell' rfl hg (Or.inl (Nat.succ_pos i'))
        rw [Nat.add_zero] at this
        simpa using this
      rw [hnil, List.nil_append]
      have harith : r0 + (i' + 1) = r0 + 1 + i' := by omega
      rw [harith]
      rw [harith] at h4
      exact ih (r0 + 1) i' j rowi cell (by simpa using h1) h2 h3 h4
        (fun i'' j' row' cell' hg1 hg2 hlt =>
          by
            have := hbefore (i'' + 1) j' row' cell' (by simpa using hg1) hg2
              (by omega)
            have harith2 : r0 + (i'' + 1) = r0 + 1 + i'' := by omega
            rw [harith2] at this
            exact this)

/-- The auto-assignment loop returns the head of the first plan's
    non-empty availability list. -/
theorem firstAvailable_head (db : DB) :
    ∀ (plans : List FloorPlan) (fp : FloorPlan) (s : SlotInfo),
      ParkingService.firstAvailable db plans = some (fp, s) →
      (ParkingService.get_available_slots db fp.id).head? = some s := by
  intro plans
  induction plans with
  | nil =>
    intro fp s h
    simp [ParkingService.firstAvailable] at h
  | cons p rest ih =>
    intro fp s h
    rw [ParkingService.firstAvailable, List.findSome?_cons] at h
    rcases hh : (ParkingService.get_available_slots db p.id).head? with _ | s0
    · rw [hh] at h
      simp only [Option.map_none'] at h
      exact ih fp s h
    · rw [hh] at h
      simp only [Option.map_some'] at h
      have hfp : p = fp ∧ s0 = s := by
        have := h
        simp only [Option.some.injEq, Prod.mk.injEq] at this
        exact this
      rw [← hfp.1, ← hfp.2]
      exact hh

/-- Claim C9: get_available_slots keeps exactly the parking-slot cells of
    the latest version whose label has no active allocation, in row-major
    order; its first element is the row-major first such cell; an
    occupied label is exactly one carried by an active allocation; and
    visitor auto-assignment allocates precisely the first available slot
    of the first parking plan that has one.  All functions are pure, so
    repeated calls on the same store return the same slot. -/
theorem claim_C9_slot_assignment :
    (∀ db fp plan version (s : SlotInfo),
      db.plans.find? (fun p => p.id == fp) = some plan →
      plan.plan_type = .parking →
      latestVersion db.versions fp = some version →
      (s ∈ ParkingService.get_available_slots db fp ↔
        ∃ row cell, version.grid_data.get? s.row = some row ∧
          row.get? s.col = some cell ∧
          (cell.cell_type == some "parking_slot") = true ∧
          s.label = slotLabelOf cell s.row s.col ∧
          s.direction = cell.direction ∧
          (ParkingService.occupiedLabels db fp).contains s.label = false))
    ∧ (∀ db fp lbl,
        (ParkingService.occupiedLabels db fp).contains lbl = true ↔
          ∃ a ∈ db.allocations, a.floor_plan_id = fp ∧ a.slot_label = lbl ∧
            a.is_active = true ∧ a.exit_time = none)
    ∧ (∀ db fp plan version i j rowi cell,
      db.plans.find? (fun p => p.id == fp) = some plan →
      plan.plan_type = .parking →
      latestVersion db.versions fp = some version →
      version.grid_data.get? i = some rowi → rowi.get? j = some cell →
      (cell.cell_type == some "parking_slot") = true →
      (ParkingService.occupiedLabels db fp).contains (slotLabelOf cell i j)
        = false →
      (∀ i' j' row' cell',
        version.grid_data.get? i' = some row' → row'.get? j' = some cell' →
        (i' < i ∨ (i' = i ∧ j' < j)) →
        ¬((cell'.cell_type == some "parking_slot") = true ∧
          (ParkingService.occupiedLabels db fp).contains
            (slotLabelOf cell' i' j') = false)) →
      (ParkingService.get_available_slots db fp).head? =
        some ⟨i, j, slotLabelOf cell i j, cell.direction⟩)
    ∧ (∀ db (vd : ParkingService.VisitorParkingCreate) (u : User) now newId
        fp (s : SlotInfo),
      ParkingService.can_manage_parking u = true →
      vd.visitor_name.data.isEmpty = false →
      2 ≤ (stripChars vd.visitor_name.data).length →
      vd.visitor_phone = none →
      vd.floor_plan_id = none →
      ParkingService.firstAvailable db
        (ParkingService.get_parking_floor_plans db) = some (fp, s) →
      ∃ alloc, ParkingService.assign_visitor_slot db vd u now newId =
          .ok ({ db with allocations := db.allocations ++ [alloc] },
               some alloc, none)
        ∧ alloc.slot_label = s.label ∧ alloc.cell_row = toString s.row
        ∧ alloc.cell_column = toString s.col ∧ alloc.floor_plan_id = fp.id
        ∧ alloc.parking_type = .visitor ∧ alloc.entry_time = some now)
    ∧ (∀ db plans (fp : FloorPlan) (s : SlotInfo),
        ParkingService.firstAvailable db plans = some (fp, s) →
        (ParkingService.get_available_slots db fp.id).head? = some s) := by
  refine ⟨?_, ?_, ?_, ?_, firstAvailable_head⟩
  · intro db fp plan version s hfind hpt hver
    obtain ⟨sr, sc, sl, sd⟩ := s
    simp only [ParkingService.get_available_slots, hfind, hver]
    rw [if_neg (by simp [hpt])]
    rw [slotScan_mem (ParkingService.occupiedLabels db fp) version.grid_data 0]
    constructor
    · rintro ⟨i, j, row, cl, h1, h2, h3, h4, h5⟩
      rw [Nat.zero_add] at h4 h5
      simp only [SlotInfo.mk.injEq] at h5
      obtain ⟨hr, hc, hl, hd⟩ := h5
      subst hr
      subst hc
      subst hl
      subst hd
      exact ⟨row, cl, h1, h2, h3, rfl, rfl, h4⟩
    · rintro ⟨row, cl, h1, h2, h3, h4, h5, h6⟩
      subst h4
      subst h5
      exact ⟨sr, sc, row, cl, by simpa using h1, h2, h3, by simpa using h6,
        by simp⟩
  · intro db fp lbl
    simp only [ParkingService.occupiedLabels]
    constructor
    · intro h
      have hmem : lbl ∈ (db.allocations.filter (fun a =>
          a.floor_plan_id == fp && a.is_active && a.exit_time == none)).map
            (fun a => a.slot_label) := by simpa using h
      obtain ⟨a, ha, rfl⟩ := List.mem_map.mp hmem
      obtain ⟨hmem2, hcond⟩ := List.mem_filter.mp ha
      have hcond' : a.floor_plan_id = fp ∧ a.is_active = true ∧
          a.exit_time = none := by simpa [and_assoc] using hcond
      exact ⟨a, hmem2, hcond'.1, rfl, hcond'.2.1, hcond'.2.2⟩
    · rintro ⟨a, ha, h1, h2, h3, h4⟩
      have : lbl ∈ (db.allocations.filter (fun a =>
          a.floor_plan_id == fp && a.is_active && a.exit_time == none)).map
            (fun a => a.slot_label) := by
        refine List.mem_map.mpr ⟨a, List.mem_filter.mpr ⟨ha, ?_⟩, h2⟩
        simp [h1, h3, h4]
      simpa using this
  · intro db fp plan version i j rowi cell hfind hpt hver h1 h2 h3 h4 hbefore
    simp only [ParkingService.get_available_slots, hfind, hver]
    rw [if_neg (by simp [hpt])]
    have := slotScan_head (ParkingService.occupiedLabels db fp)
      version.grid_data 0 i j rowi cell h1 h2 h3 (by simpa using h4)
      (fun i' j' row' cell' hg1 hg2 hlt =>
        by simpa using hbefore i' j' row' cell' hg1 hg2 hlt)
    simpa using this
  · intro db vd u now newId fp s hcm hname1 hname2 hphone hfp hfa
    have hplans : ParkingService.get_parking_floor_plans db ≠ [] := by
      intro h
      rw [h] at hfa
      simp [ParkingService.firstAvailable] at hfa
    simp only [ParkingService.assign_visitor_slot, hcm, Bool.not_true,
      Bool.false_eq_true, if_false]
    rw [if_neg (by simp [hname1]; omega)]
    rw [if_neg (by simp [hphone, optStrTruthy])]
    rw [if_neg (by simpa [List.isEmpty_iff] using hplans)]
    rw [hfp]
    cases hsl : vd.slot_label with
    | none =>
      simp only [hfa]
      exact ⟨_, rfl, rfl, rfl, rfl, rfl, rfl, rfl⟩
    | some lbl =>
      simp only [hfa]
      exact ⟨_, rfl, rfl, rfl, rfl, rfl, rfl, rfl⟩

/-- Labelled parking-slot cells for the spec scenario. -/
def slotP11 : Cell := ⟨some "parking_slot", some "P11", none, none⟩

/-- Second labelled parking-slot cell. -/
def slotP12 : Cell := ⟨some "parking_slot", some "P12", none, none⟩

/-- The first row of the spec-scenario grid: walls only. -/
def wallRow : List Cell := [wallCell, wallCell, wallCell]

/-- The second row of the spec-scenario grid: wall, then free slots at
    (1, 1) and (1, 2). -/
def slotRow : List Cell := [wallCell, slotP11, slotP12]

/-- The spec scenario: a parking plan whose grid has free parking slots at
    (1, 1) and (1, 2) and nothing else bookable, with no allocations. -/
def specDB : DB :=
  { plans := [⟨1, "P", .parking, 2, 3, 1, true, 1⟩],
    versions := [⟨1, 1, [wallRow, slotRow], true, 1, none⟩],
    desk_bookings := [], caf_bookings := [], allocations := [],
    parking_history := [] }

/-- A visitor payload with no requested slot, triggering auto-assignment. -/
def visitorAnn : ParkingService.VisitorParkingCreate :=
  { visitor_name := "Ann", visitor_phone := none, visitor_company := none,
    vehicle_number := none, notes := none, floor_plan_id := none,
    slot_label := none }

/-- Witness for C9 on the spec scenario: the slot at (1, 1) is the first
    available slot, it is a member of the availability list, slot P1 of
    the held-allocation store counts as occupied, and visitor
    auto-assignment allocates exactly the (1, 1) slot. -/
theorem claim_C9_slot_assignment_witness :
    (ParkingService.get_available_slots specDB 1).head? =
      some ⟨1, 1, slotLabelOf slotP11 1 1, slotP11.direction⟩
    ∧ (⟨1, 2, "P12", none⟩ : SlotInfo) ∈
        ParkingService.get_available_slots specDB 1
    ∧ (ParkingService.occupiedLabels parkDB 1).contains "P1" = true
    ∧ ∃ alloc, ParkingService.assign_visitor_slot specDB visitorAnn
        ⟨5, .manager, some .parking⟩ 50 7 =
        .ok ({ specDB with allocations := specDB.allocations ++ [alloc] },
             some alloc, none)
      ∧ alloc.slot_label = (⟨1, 1, "P11", none⟩ : SlotInfo).label
      ∧ alloc.cell_row = toString (⟨1, 1, "P11", none⟩ : SlotInfo).row
      ∧ alloc.cell_column = toString (⟨1, 1, "P11", none⟩ : SlotInfo).col
      ∧ alloc.floor_plan_id = (⟨1, "P", FloorPlanType.parking, 2, 3, 1,
          true, 1⟩ : FloorPlan).id
      ∧ alloc.parking_type = .visitor ∧ alloc.entry_time = some 50 := by
  have hbefore : ∀ i' j' row' cell',
      ([wallRow, slotRow] : List (List Cell)).get? i' = some row' →
      row'.get? j' = some cell' →
      (i' < 1 ∨ (i' = 1 ∧ j' < 1)) →
      ¬((cell'.cell_type == some "parking_slot") = true ∧
        (ParkingService.occupiedLabels specDB 1).contains
          (slotLabelOf cell' i' j') = false) := by
    intro i' j' row' cell' h1 h2 h3
    have hwall : cell' = wallCell := by
      rcases h3 with h | ⟨hi, hj⟩
      · have hi0 : i' = 0 := by omega
        subst hi0
        have hrow : wallRow = row' := by simpa using h1
        cases hrow
        have hmem := List.get?_mem h2
        simpa [wallRow] using hmem
      · subst hi
        have hj0 : j' = 0 := by omega
        subst hj0
        have hrow : slotRow = row' := by simpa using h1
        cases hrow
        have hc : wallCell = cell' := by simpa [slotRow] using h2
        exact hc.symm
    subst hwall
    intro hq
    exact absurd hq.1 (by decide)
  refine ⟨?_, ?_, ?_, ?_⟩
  · exact claim_C9_slot_assignment.2.2.1 specDB 1
      ⟨1, "P", .parking, 2, 3, 1, true, 1⟩
      ⟨1, 1, [wallRow, slotRow], true, 1, none⟩ 1 1 slotRow slotP11
      (by decide) (by decide) (by decide) (by decide) (by decide)
      (by decide) (by decide) hbefore
  · exact (claim_C9_slot_assignment.1 specDB 1
      ⟨1, "P", .parking, 2, 3, 1, true, 1⟩
      ⟨1, 1, [wallRow, slotRow], true, 1, none⟩ ⟨1, 2, "P12", none⟩
      (by decide) (by decide) (by decide)).mpr
      ⟨slotRow, slotP12, by decide, by decide, by decide, by decide,
       by decide, by decide⟩
  · exact (claim_C9_slot_assignment.2.1 parkDB 1 "P1").mpr
      ⟨entryAlloc, by decide, by decide, by decide, by decide, by decide⟩
  · exact claim_C9_slot_assignment.2.2.2.1 specDB visitorAnn
      ⟨5, .manager, some .parking⟩ 50 7
      ⟨1, "P", .parking, 2, 3, 1, true, 1⟩ ⟨1, 1, "P11", none⟩
      (by decide) (by decide) (by decide) (by decide) (by decide)
      (by decide)

end Unifid
